import Mathlib

set_option maxRecDepth 10000

/-!
Verification development for the `tabby-utils` repository.

The repository is a set of Python scripts that reshape "tabby" metadata
records into a catalog schema (`load_tabby.py`), enrich them through HTTP
queries (`queries.py`), and mint deterministic dataset identifiers
(`utils.py`).  This file gives a shallow embedding of the repository's own
logic in Lean:

* Python values flowing through the scripts are modelled by the inductive
  type `Val` (None, bool, int, str, list, dict); Python dicts are modelled
  as association lists without duplicate keys, preserving insertion order.
* Python exceptions are modelled by `Except String`, the error string
  naming the Python exception class.
* External libraries (requests, ElementTree, BeautifulSoup, lxml, pyld,
  datalad) are modelled at their interface: an HTTP response is a status
  code plus an already-parsed body, and parser failures of the external
  library are part of the response value.
* Machine-level computations (`uuid.uuid5`, i.e. SHA-1) are embedded
  directly over `Nat` byte lists with explicit `% 2^32` arithmetic.
-/

namespace TabbyUtils

/-- Model of a Python value: None, bool, int, str, list, or dict.
Dicts are insertion-ordered association lists (Python guarantees key
uniqueness; theorems add that hypothesis where behaviour depends on it). -/
inductive Val where
  | null
  | bool (b : Bool)
  | int (n : Int)
  | str (s : String)
  | list (xs : List Val)
  | dict (kvs : List (String × Val))

/-- Exceptions are modelled by `Except String`, the string naming the
Python exception raised. -/
abbrev M (α : Type) : Type := Except String α

/-- Check for Python None (the `v is None` test). -/
def Val.isNull : Val → Bool
  | .null => true
  | _ => false

/-- Python truthiness of a modelled value (used by `if value:` checks). -/
def Val.truthy : Val → Bool
  | .null => false
  | .bool b => b
  | .int n => n != 0
  | .str s => s ≠ ""
  | .list xs => !xs.isEmpty
  | .dict kvs => !kvs.isEmpty

/-- First binding of a key in an association list (Python dict access). -/
def alookup : List (String × Val) → String → Option Val
  | [], _ => none
  | (k, v) :: rest, key => if k = key then some v else alookup rest key

/-- Python `d.get(key, default)`. -/
def pyGet (kvs : List (String × Val)) (key : String) (dflt : Val) : Val :=
  (alookup kvs key).getD dflt

/-- Python `d.get(key)` (default `None`). -/
def pyGet1 (kvs : List (String × Val)) (key : String) : Val :=
  pyGet kvs key .null

/-- Python `d[key] = v`: replace the value in place if the key exists,
otherwise append the binding at the end (insertion order). -/
def dictSet (kvs : List (String × Val)) (key : String) (v : Val) : List (String × Val) :=
  if kvs.any (fun kv => kv.1 = key) then
    kvs.map (fun kv => if kv.1 = key then (key, v) else kv)
  else
    kvs ++ [(key, v)]

/-- Python `d.pop(key, None)`: the removed value (or `None`) and the
remaining dict. -/
def dictPop (kvs : List (String × Val)) (key : String) : Val × List (String × Val) :=
  (pyGet1 kvs key, kvs.filter (fun kv => kv.1 ≠ key))

/-- Python `left | right` on dicts: left-dict order first with right-hand
values winning on common keys, then keys only in the right dict. -/
def dictUnion (l r : List (String × Val)) : List (String × Val) :=
  l.map (fun kv => (kv.1, pyGet r kv.1 kv.2)) ++
    r.filter (fun kv => !l.any (fun kv2 => kv2.1 = kv.1))

/-- Python `v == "lit"` for a string literal (False on non-strings). -/
def Val.isStr (v : Val) (s : String) : Bool :=
  match v with
  | .str t => t = s
  | _ => false

/-- Python `v == []`. -/
def Val.isEmptyList : Val → Bool
  | .list [] => true
  | _ => false

/-! ### String helpers (ASCII models of the Python `str` methods used) -/

/-- ASCII model of `str.lower` on one character. -/
def lowerChar (c : Char) : Char :=
  if 65 ≤ c.toNat ∧ c.toNat ≤ 90 then Char.ofNat (c.toNat + 32) else c

/-- ASCII model of `str.upper` on one character. -/
def upperChar (c : Char) : Char :=
  if 97 ≤ c.toNat ∧ c.toNat ≤ 122 then Char.ofNat (c.toNat - 32) else c

/-- ASCII model of Python `str.lower()`. -/
def pyLower (s : String) : String := ⟨s.data.map lowerChar⟩

/-- ASCII model of Python `str.upper()`. -/
def pyUpper (s : String) : String := ⟨s.data.map upperChar⟩

/-- Python `s.startswith(p)`. -/
def pyStartswith (s p : String) : Bool := p.data.isPrefixOf s.data

/-- Python `s.rpartition(sep)` (split at the last occurrence of `sep`;
`sep` is a single character in every use in this repository). -/
def rpartitionChar (s : String) (sep : Char) : String × String × String :=
  let rev := s.data.reverse
  if rev.any (fun c => c = sep) then
    let post := rev.takeWhile (fun c => c ≠ sep)
    let pre := (rev.dropWhile (fun c => c ≠ sep)).tailD []
    (⟨pre.reverse⟩, ⟨[sep]⟩, ⟨post.reverse⟩)
  else
    ("", "", s)

/-- One step of Python `str.replace`: if `pat` is a leading run of `cs`,
drop it and emit `rep`; recursion is fuelled by the string length. -/
def replaceGo (pat rep : List Char) : Nat → List Char → List Char
  | _, [] => []
  | 0, cs => cs
  | fuel + 1, c :: cs =>
    if pat.isPrefixOf (c :: cs) then
      rep ++ replaceGo pat rep fuel ((c :: cs).drop pat.length)
    else
      c :: replaceGo pat rep fuel cs

/-- Python `s.replace(pat, rep)` for a non-empty `pat`. -/
def pyReplace (s pat rep : String) : String :=
  ⟨replaceGo pat.data rep.data s.data.length s.data⟩

/-- Python `str.split()` with no argument: split on runs of whitespace,
no empty fields. -/
def pySplitWs (s : String) : List String :=
  (s.data.splitOnP (fun c => c = ' ' ∨ c = '\t' ∨ c = '\n' ∨ c = '\r')).filterMap
    (fun w => if w.isEmpty then none else some ⟨w⟩)

/-- Python `sep.join(words)`. -/
def pyJoin (sep : String) (ws : List String) : String :=
  match ws with
  | [] => ""
  | w :: rest => rest.foldl (fun acc x => acc ++ sep ++ x) w

/-- Python `str.strip()` (ASCII whitespace model). -/
def pyStrip (s : String) : String :=
  ⟨(s.data.dropWhile (fun c => c = ' ' ∨ c = '\t' ∨ c = '\n' ∨ c = '\r')).reverse.dropWhile
      (fun c => c = ' ' ∨ c = '\t' ∨ c = '\n' ∨ c = '\r') |>.reverse⟩

/-- Python `int(str)` on the string values seen here: optional sign and
decimal digits after stripping whitespace; anything else raises
`ValueError`. -/
def pyIntOfString (s : String) : M Int :=
  let cs := (pyStrip s).data
  let (sign, digits) : Int × List Char :=
    match cs with
    | '-' :: rest => (-1, rest)
    | '+' :: rest => (1, rest)
    | _ => (1, cs)
  if digits.isEmpty ∨ digits.any (fun c => ¬ c.isDigit) then
    .error "ValueError"
  else
    .ok (sign * (digits.foldl (fun acc c => acc * 10 + (c.toNat - 48)) 0 : Nat))

/-- Python `int(v)` for the value shapes that can reach the call sites. -/
def pyInt : Val → M Int
  | .int n => .ok n
  | .bool b => .ok (if b then 1 else 0)
  | .str s => pyIntOfString s
  | _ => .error "TypeError"

/-! ### UTF-8 and SHA-1 (the computation behind `uuid.uuid5`)

`uuid.uuid5(namespace, name)` is SHA-1 over the namespace bytes followed
by the UTF-8 encoding of the name, truncated to 16 bytes with the version
and variant bits forced.  SHA-1 is embedded over `Nat` with explicit
`% 2^32` 32-bit arithmetic. -/

/-- UTF-8 encoding of one character (code point to bytes). -/
def utf8Char (c : Char) : List Nat :=
  let n := c.toNat
  if n < 128 then [n]
  else if n < 2048 then [192 + n / 64, 128 + n % 64]
  else if n < 65536 then [224 + n / 4096, 128 + (n / 64) % 64, 128 + n % 64]
  else [240 + n / 262144, 128 + (n / 4096) % 64, 128 + (n / 64) % 64, 128 + n % 64]

/-- UTF-8 encoding of a string as a byte list. -/
def utf8 (s : String) : List Nat := (s.data.map utf8Char).flatten

/-- Rotate `x` left by `n` bits in 32-bit arithmetic (with `x < 2^32`). -/
def rotl (n x : Nat) : Nat := ((x <<< n) ||| (x >>> (32 - n))) % 4294967296

/-- SHA-1 round constants. -/
def sha1K (i : Nat) : Nat :=
  if i < 20 then 1518500249
  else if i < 40 then 1859775393
  else if i < 60 then 2400959708
  else 3395469782

/-- SHA-1 round functions (bitwise choice / parity / majority). -/
def sha1F (i b c d : Nat) : Nat :=
  if i < 20 then (b &&& c) ||| ((b ^^^ 4294967295) &&& d)
  else if i < 40 then b ^^^ c ^^^ d
  else if i < 60 then (b &&& c) ||| (b &&& d) ||| (c &&& d)
  else b ^^^ c ^^^ d

/-- Big-endian 32-bit words from a byte list. -/
def wordsOfBytes : List Nat → List Nat
  | b0 :: b1 :: b2 :: b3 :: rest =>
    (b0 * 16777216 + b1 * 65536 + b2 * 256 + b3) :: wordsOfBytes rest
  | _ => []

/-- Message-schedule expansion: `rev` holds the words produced so far in
reverse; `n` more words are appended, each the 1-rotation of the XOR of
the words 3, 8, 14 and 16 positions back. -/
def sha1Expand (rev : List Nat) : Nat → List Nat
  | 0 => rev.reverse
  | n + 1 =>
    sha1Expand
      (rotl 1 ((rev.getD 2 0) ^^^ (rev.getD 7 0) ^^^ (rev.getD 13 0) ^^^ (rev.getD 15 0)) :: rev)
      n

/-- SHA-1 working state. -/
structure Sha1State where
  a : Nat
  b : Nat
  c : Nat
  d : Nat
  e : Nat

/-- One SHA-1 round: `iw` is the round index paired with the scheduled
word. -/
def sha1Step (st : Sha1State) (iw : Nat × Nat) : Sha1State :=
  let t := (rotl 5 st.a + sha1F iw.1 st.b st.c st.d + st.e + sha1K iw.1 + iw.2) % 4294967296
  ⟨t, st.a, rotl 30 st.b, st.c, st.d⟩

/-- Process one 64-byte block and add the result into the chaining state. -/
def sha1Block (h : Sha1State) (block : List Nat) : Sha1State :=
  let ws := sha1Expand (wordsOfBytes block).reverse 64
  let st := ((List.range 80).zip ws).foldl sha1Step h
  ⟨(h.a + st.a) % 4294967296, (h.b + st.b) % 4294967296, (h.c + st.c) % 4294967296,
    (h.d + st.d) % 4294967296, (h.e + st.e) % 4294967296⟩

/-- Big-endian bytes of the 64-bit message bit length. -/
def lenBytes64 (n : Nat) : List Nat :=
  [(n >>> 56) % 256, (n >>> 48) % 256, (n >>> 40) % 256, (n >>> 32) % 256,
    (n >>> 24) % 256, (n >>> 16) % 256, (n >>> 8) % 256, n % 256]

/-- SHA-1 padding: a 0x80 byte, zeros to 56 mod 64, then the bit length. -/
def sha1Pad (msg : List Nat) : List Nat :=
  msg ++ 128 :: List.replicate ((119 - msg.length % 64) % 64) 0 ++ lenBytes64 (8 * msg.length)

/-- Split into 64-byte blocks; `fuel` is the block count of the padded
message, so the recursion is structural. -/
def chunks64 : Nat → List Nat → List (List Nat)
  | 0, _ => []
  | n + 1, l => l.take 64 :: chunks64 n (l.drop 64)

/-- Big-endian bytes of one 32-bit word. -/
def wordBytes (w : Nat) : List Nat :=
  [(w >>> 24) % 256, (w >>> 16) % 256, (w >>> 8) % 256, w % 256]

/-- SHA-1 digest (20 bytes) of a byte list. -/
def sha1 (msg : List Nat) : List Nat :=
  let padded := sha1Pad msg
  let h := (chunks64 (padded.length / 64) padded).foldl sha1Block
    ⟨1732584193, 4023233417, 2562383102, 271733878, 3285377520⟩
  wordBytes h.a ++ wordBytes h.b ++ wordBytes h.c ++ wordBytes h.d ++ wordBytes h.e

/-- The 16 bytes of a version-5 UUID: SHA-1 of namespace ++ name,
truncated, with the version nibble forced to 5 and the variant bits to
10. -/
def uuid5Bytes (ns : List Nat) (name : List Nat) : List Nat :=
  ((sha1 (ns ++ name)).take 16).enum.map
    (fun p =>
      if p.1 = 6 then p.2 % 16 + 80
      else if p.1 = 8 then p.2 % 64 + 128
      else p.2)

/-- Lowercase hex digit. -/
def hexDigit (n : Nat) : Char := Char.ofNat (if n < 10 then 48 + n else 87 + n)

/-- Lowercase hex characters of a byte list. -/
def bytesHex (bs : List Nat) : List Char :=
  (bs.map (fun b => [hexDigit (b / 16), hexDigit (b % 16)])).flatten

/-- Format of `str(UUID(...))`: 32 hex digits in 8-4-4-4-12 groups. -/
def uuidStr (bs : List Nat) : String :=
  let cs := bytesHex bs
  ⟨cs.take 8 ++ '-' :: ((cs.drop 8).take 4 ++ '-' :: ((cs.drop 12).take 4 ++ '-' ::
    ((cs.drop 16).take 4 ++ '-' :: cs.drop 20)))⟩

/-- Bytes of `uuid.NAMESPACE_DNS` (6ba7b810-9dad-11d1-80b4-00c04fd430c8). -/
def NAMESPACE_DNS : List Nat :=
  [107, 167, 184, 16, 157, 173, 17, 209, 128, 180, 0, 192, 79, 212, 48, 200]

/-- The string `str(uuid.uuid5(ns, name))` over modelled UUID bytes. -/
def uuid5Str (ns : List Nat) (name : String) : String :=
  uuidStr (uuid5Bytes ns (utf8 name))

/-! ### `utils.py` -/

/-- Literal `{` character (written by code point to keep it out of string
literals). -/
def lbrace : Char := Char.ofNat 123

/-- Literal `}` character. -/
def rbrace : Char := Char.ofNat 125

/-- Key lookup for `str.format` replacement fields. -/
def slookup : List (String × String) → String → Option String
  | [], _ => none
  | (k, v) :: rest, key => if k = key then some v else slookup rest key

/-- Model of Python `str.format(**vals)` for the templates used here:
literal text plus `\x7bkey\x7d` replacement fields (no escaped braces, no
format specs).  A missing key raises `KeyError`; an unterminated field
raises `ValueError`.  Recursion is fuelled by the template length. -/
def formatGo (vals : List (String × String)) : Nat → List Char → M (List Char)
  | _, [] => .ok []
  | 0, _ => .error "RecursionError"
  | fuel + 1, c :: rest =>
    if c = lbrace then
      let key := rest.takeWhile (fun d => d ≠ rbrace)
      match rest.dropWhile (fun d => d ≠ rbrace) with
      | [] => .error "ValueError"
      | _ :: tail =>
        match slookup vals (⟨key⟩ : String) with
        | none => .error "KeyError"
        | some v => (formatGo vals fuel tail).map (fun t => v.data ++ t)
    else
      (formatGo vals fuel rest).map (fun t => c :: t)

/-- Python `fmt.format(**vals)` (subset used by `get_dataset_id`). -/
def pyFormat (fmt : String) (vals : List (String × String)) : M String :=
  (formatGo vals (fmt.data.length + 1) fmt.data).map (fun cs => ⟨cs⟩)

/-- Embedding of `utils.get_dataset_id`: instantiate the configured format string and
hash it through two chained UUIDv5 steps (namespace seeded from
"datalad.org"). -/
def get_dataset_id (input : List (String × String)) (config : List (String × String)) :
    M String :=
  let fmt := (slookup config "dataset_id_fmt").getD "\x7bdataset_id\x7d"
  (pyFormat fmt input).map
    (fun raw => uuid5Str (uuid5Bytes NAMESPACE_DNS (utf8 "datalad.org")) raw)

/-- Embedding of `utils.mint_dataset_id`: lowercase the project (first element if a
list, raising `IndexError` on an empty list), then hash
`sfb1451.\x7bproject\x7d.\x7bname\x7d` via `get_dataset_id`. -/
def mint_dataset_id (ds_name : String) (project : String ⊕ List String) : M String := do
  let p ← match project with
    | .inl s => Except.ok (pyLower s)
    | .inr [] => Except.error "IndexError"
    | .inr (q :: _) => Except.ok (pyLower q)
  get_dataset_id [("name", ds_name), ("project", p)]
    [("dataset_id_fmt", "sfb1451.\x7bproject\x7d.\x7bname\x7d")]

/-! ### `urllib.parse.urlparse` (model of the parts used: scheme, netloc,
path, query, fragment; the params component is not modelled since no
caller reads it) -/

/-- Components of a parsed URL. -/
structure UrlParts where
  scheme : String
  netloc : String
  path : String
  query : String
  fragment : String

/-- Characters allowed in a URL scheme after the first letter. -/
def isSchemeChar (c : Char) : Bool := c.isAlphanum ∨ c = '+' ∨ c = '-' ∨ c = '.'

/-- Model of `urllib.parse.urlparse`: an optional `scheme:`, a netloc
after `//` up to the next `/`, `?` or `#`, then path, query and
fragment.  As in CPython, a netloc that contains one of the square
brackets without the other raises `ValueError` ("Invalid IPv6 URL");
the check applies only to the netloc part, i.e. only after `//`. -/
def urlparse (url : String) : M UrlParts :=
  let cs := url.data
  let pre := cs.takeWhile (fun c => c ≠ ':')
  let hasScheme :=
    ¬ (cs.dropWhile (fun c => c ≠ ':')).isEmpty ∧ ¬ pre.isEmpty ∧
      (pre.headD 'a').isAlpha ∧ pre.all isSchemeChar
  let scheme : String := if hasScheme then ⟨pre.map lowerChar⟩ else ""
  let rest := if hasScheme then (cs.dropWhile (fun c => c ≠ ':')).tailD [] else cs
  let hasNetloc := [ '/', '/' ].isPrefixOf rest
  let r := rest.drop 2
  let netloc : List Char :=
    if hasNetloc then r.takeWhile (fun c => c ≠ '/' ∧ c ≠ '?' ∧ c ≠ '#') else []
  let rest2 :=
    if hasNetloc then r.dropWhile (fun c => c ≠ '/' ∧ c ≠ '?' ∧ c ≠ '#') else rest
  if (netloc.contains '[' && !netloc.contains ']') ||
      (netloc.contains ']' && !netloc.contains '[') then
    .error "ValueError"
  else
    let beforeFrag := rest2.takeWhile (fun c => c ≠ '#')
    let fragment := (rest2.dropWhile (fun c => c ≠ '#')).tailD []
    let path := beforeFrag.takeWhile (fun c => c ≠ '?')
    let query := (beforeFrag.dropWhile (fun c => c ≠ '?')).tailD []
    .ok ⟨scheme, ⟨netloc⟩, ⟨path⟩, ⟨query⟩, ⟨fragment⟩⟩

/-! ### `load_tabby.py` field transformers -/

/-- The catalog-schema author keys kept by `process_authors`. -/
def known_author_keys : List String :=
  ["name", "email", "identifiers", "givenName", "familyName", "honorificSuffix"]

/-- Body of the `process_authors` loop for one author: keep known keys
with non-None values, then re-insert a truthy `orcid` as an
`identifiers` list. -/
def process_author_one (author : Val) : M Val :=
  match author with
  | .dict kvs =>
    let d := kvs.filter (fun kv => known_author_keys.contains kv.1 && !kv.2.isNull)
    let orcid := pyGet kvs "orcid" (.bool false)
    let d :=
      if orcid.truthy then
        dictSet d "identifiers" (.list [.dict [("name", .str "ORCID"), ("identifier", orcid)]])
      else d
    .ok (.dict d)
  | _ => .error "AttributeError"

/-- The `for author in authors` loop of `process_authors`. -/
def process_authors_list : List Val → M (List Val)
  | [] => .ok []
  | a :: rest => do
    let d ← process_author_one a
    let tail ← process_authors_list rest
    .ok (d :: tail)

/-- Embedding of `load_tabby.process_authors`: None passes through, a single dict is
wrapped in a list, and each author is filtered to known keys (a
non-dict element raises, as iterating it in Python would). -/
def process_authors (authors : Val) : M Val :=
  match authors with
  | .null => .ok .null
  | .dict kvs => (process_author_one (.dict kvs)).map (fun d => .list [d])
  | .list xs => (process_authors_list xs).map .list
  | .str "" => .ok (.list [])
  | _ => .error "TypeError"

/-- Embedding of `load_tabby.process_license`: None passes through; a string is
parsed as a URL (the source inspects the result and does nothing) and
returned as both name and url. -/
def process_license (license : Val) : M Val :=
  match license with
  | .null => .ok .null
  | .str s => do
    let parsed ← urlparse s
    -- the source checks `parsed_url.scheme != "" and parsed_url.netloc != ""`
    -- and executes `pass` in both cases
    let _unused := parsed
    .ok (.dict [("name", .str s), ("url", .str s)])
  | _ => .error "AttributeError"

/-- Embedding of `load_tabby.process_doi`: ensure the DOI is in URL form. -/
def process_doi (doi : Val) : M Val :=
  match doi with
  | .null => .ok .null
  | .str s => .ok (.str (if pyStartswith s "http" then s else "https://doi.org/" ++ s))
  | _ => .error "AttributeError"

/-- Embedding of `load_tabby.process_keywords`: wrap a string in a list, pass
everything else through unchanged. -/
def process_keywords (keywords : Val) : Val :=
  match keywords with
  | .str s => .list [.str s]
  | v => v

/-- Embedding of `load_tabby.process_arc`: use the first data controller, split its
name at the last space, and return givenName/familyName/email. -/
def process_arc (data_controller : Val) : M Val :=
  match data_controller with
  | .null => .ok .null
  | v => do
    let dc ← match v with
      | .list [] => Except.error "IndexError"
      | .list (x :: _) => Except.ok x
      | w => Except.ok w
    match dc with
    | .dict kvs =>
      match pyGet kvs "name" (.str "") with
      | .str name =>
        let parts := rpartitionChar name ' '
        .ok (.dict [("givenName", .str parts.1), ("familyName", .str parts.2.2),
          ("email", pyGet kvs "email" (.str ""))])
      | _ => .error "TypeError"
    | _ => .error "AttributeError"

mutual

/-- Embedding of `load_tabby.process_data_controller`: recurse into lists and prepend
a schema.org Person type to each dict. -/
def process_data_controller : Val → M Val
  | .null => .ok .null
  | .list xs => (process_dc_list xs).map .list
  | .dict kvs => .ok (.dict (dictUnion [("@type", .str "https://schema.org/Person")] kvs))
  | _ => .error "TypeError"

/-- The list comprehension inside `process_data_controller`. -/
def process_dc_list : List Val → M (List Val)
  | [] => .ok []
  | v :: vs => do
    let x ← process_data_controller v
    let rest ← process_dc_list vs
    .ok (x :: rest)

end

mutual

/-- Embedding of `load_tabby.process_used_for`: recurse into lists; turn an activity
dict into a schema.org Thing with name, optional url, and description
(a list of paragraphs is joined with blank lines). -/
def process_used_for : Val → M Val
  | .list xs => (process_uf_list xs).map .list
  | .null => .ok .null
  | .dict kvs => do
    let thing := [("@type", .str "https://schema.org/Thing")]
    let thing := dictSet thing "name" (pyGet kvs "title" (.str ""))
    let url := pyGet kvs "url" (.bool false)
    let thing := if url.truthy then dictSet thing "url" url else thing
    let description := pyGet kvs "description" (.bool false)
    if description.truthy then
      match description with
      | .list ds => do
        let strs ← ds.mapM (fun d =>
          match d with
          | .str s => Except.ok s
          | _ => Except.error "TypeError")
        .ok (.dict (dictSet thing "description" (.str (pyJoin "\n\n" strs))))
      | d => .ok (.dict (dictSet thing "description" d))
    else
      .ok (.dict thing)
  | _ => .error "AttributeError"

/-- The list comprehension inside `process_used_for`. -/
def process_uf_list : List Val → M (List Val)
  | [] => .ok []
  | v :: vs => do
    let x ← process_used_for v
    let rest ← process_uf_list vs
    .ok (x :: rest)

end

/-- Python `f.get(key, \x7b\x7d).get("@value")`: `AttributeError` when
the stored value is not a dict. -/
def getAtValue (fkvs : List (String × Val)) (key : String) : M Val :=
  match pyGet fkvs key (.dict []) with
  | .dict kvs => .ok (pyGet1 kvs "@value")
  | _ => .error "AttributeError"

/-- The `name` fallback of `process_file`: when the input has no `path`
but has a `name`, the path is re-read from the `name` entry. -/
def file_path_fallback (fkvs d : List (String × Val)) : M (List (String × Val)) :=
  if (pyGet1 fkvs "path").isNull && !(pyGet1 fkvs "name").isNull then do
    let namev ← getAtValue fkvs "name"
    .ok (dictSet d "path" namev)
  else
    .ok d

/-- The type conversion of `process_file`: a truthy contentbytesize is
passed through `int()`. -/
def file_bytesize_conv (d : List (String × Val)) : M (List (String × Val)) :=
  if (pyGet d "contentbytesize" (.bool false)).truthy then do
    let n ← pyInt (pyGet1 d "contentbytesize")
    .ok (dictSet d "contentbytesize" (.int n))
  else
    .ok d

/-- Embedding of `load_tabby.process_file`: pull path/contentbytesize/url out of the
`@value` wrappers, fall back to `name` for the path, convert a truthy
contentbytesize with `int()`, and drop None values. -/
def process_file (f : Val) : M Val :=
  match f with
  | .dict fkvs => do
    let pathv ← getAtValue fkvs "path"
    let cbs ← getAtValue fkvs "contentbytesize"
    let d := [("path", pathv), ("contentbytesize", cbs), ("url", pyGet1 fkvs "url")]
    let d ← file_path_fallback fkvs d
    let d ← file_bytesize_conv d
    .ok (.dict (d.filter (fun kv => !kv.2.isNull)))
  | _ => .error "AttributeError"

mutual

/-- Embedding of `load_tabby.process_homepage`: recurse into lists; wrap anything
else (but None) as a schema.org URL value. -/
def process_homepage : Val → Val
  | .null => .null
  | .list xs => .list (process_hp_list xs)
  | v => .dict [("@type", .str "https://schema.org/URL"), ("@value", v)]

/-- The list comprehension inside `process_homepage`. -/
def process_hp_list : List Val → List Val
  | [] => []
  | v :: vs => process_homepage v :: process_hp_list vs

end

/-- The clone-URL hosts accepted by `process_homepage_as_url`. -/
def known_locations : List String :=
  ["gin.g-node.org", "github.com", "gitlab.com", "jugit.fz-juelich.de"]

/-- The `for hp in homepage` loop of `process_homepage_as_url`: keep the
strings whose parsed netloc is a known host and whose path is
non-empty. -/
def hp_url_loop : List Val → M (List Val)
  | [] => .ok []
  | hp :: rest =>
    match hp with
    | .str s => do
      let parsed ← urlparse s
      let tail ← hp_url_loop rest
      if known_locations.contains parsed.netloc ∧ parsed.path ≠ "" then
        .ok (.str s :: tail)
      else
        .ok tail
    | _ => .error "AttributeError"

/-- The list branch of `process_homepage_as_url` (iterating a dict in
Python yields its keys). -/
def process_hp_as_url_go (homepage : Val) : M Val :=
  match homepage with
  | .list hps => do
    let url ← hp_url_loop hps
    .ok (if url.length > 0 then .list url else .null)
  | .dict kvs => do
    let url ← hp_url_loop (kvs.map (fun kv => .str kv.1))
    .ok (if url.length > 0 then .list url else .null)
  | _ => .error "TypeError"

/-- Embedding of `load_tabby.process_homepage_as_url`: None passes through, a string
is wrapped in a list (the source calls itself recursively on `[s]`),
and a list is filtered to known clone hosts, with `None` replacing an
empty result. -/
def process_homepage_as_url (homepage : Val) : M Val :=
  match homepage with
  | .null => .ok .null
  | .str s => process_hp_as_url_go (.list [.str s])
  | v => process_hp_as_url_go v

/-- Body of the `process_publications` loop for one publication.  The
network calls of `queries.py` are passed in as oracles `qdoi`
(`query_doi_org` keyed by the URL-form DOI), `qcrossref`
(`query_crossref_xml`) and `qagency` (`query_agency`).  Note the
source's `except NotImplementedError` handler calls `warnings.warn`
although `load_tabby.py` never imports `warnings`, so that path raises
`NameError`. -/
def process_publication_one (qdoi qcrossref : String → M (Option Val))
    (qagency : String → M (Option String)) (publication : Val) : M Val :=
  match publication with
  | .dict kvs => do
    let fromDoi : Option Val ←
      match pyGet1 kvs "doi" with
      | .null => pure none
      | .str doi0 => do
        let doi := if pyStartswith doi0 "http" then doi0 else "https://doi.org/" ++ doi0
        match ← qdoi doi with
        | some pub => pure (some pub)
        | none => do
          let ra ← qagency doi
          if ra = some "Crossref" then
            match qcrossref doi with
            | .error e =>
              if e = "NotImplementedError" then Except.error "NameError" else Except.error e
            | .ok (some pub) => pure (some pub)
            | .ok none => pure none
          else
            pure none
      | _ => Except.error "AttributeError"
    match fromDoi with
    | some pub => .ok pub
    | none =>
      let pc := dictPop kvs "citation"
      if pc.1.isNull then
        .ok (.dict pc.2)
      else
        .ok (.dict (dictSet (dictSet pc.2 "title" pc.1) "authors" (.list [])))
  | _ => .error "AttributeError"

/-- Embedding of `load_tabby.process_publications`: None passes through, a single
dict is wrapped in a list, and each publication is resolved via its DOI
when possible, otherwise its citation is moved into the title. -/
def process_publications (qdoi qcrossref : String → M (Option Val))
    (qagency : String → M (Option String)) (publications : Val) : M Val :=
  match publications with
  | .null => .ok .null
  | .dict kvs =>
    (process_publication_one qdoi qcrossref qagency (.dict kvs)).map (fun p => .list [p])
  | .list xs => (xs.mapM (process_publication_one qdoi qcrossref qagency)).map .list
  | .str "" => .ok (.list [])
  | _ => .error "AttributeError"

/-- The fixed parent grant injected for SFB1451 sub-projects. -/
def parentGrantDict : List (String × Val) :=
  [("funder", .str "Deutsche Forschungsgemeinschaft (DFG)"),
    ("name", .str "SFB 1451: Key mechanisms of motor control in health and disease"),
    ("identifier", .str "https://gepris.dfg.de/gepris/projekt/431549029"),
    ("@type", .str "https://schema.org/Grant")]

/-- Body of the `process_funding` loop for one item, returning the
grants appended for it (a parent grant first when one is produced).
Mirrors the source: the `@type` compact IRI is expanded; DFG funders are
spelled out; `431549029-…` identifiers are split at the last dash and
looked up in the provided table, producing either parent+sub-project
grants or the parent grant alone; other DFG identifiers become GEPRIS
URLs. -/
def process_funding_one (lookup : List (String × Val)) (f : Val) : M (List Val) :=
  match f with
  | .dict fkvs => do
    let t ← match pyGet fkvs "@type" (.str "") with
      | .str s => Except.ok (pyReplace s "schema:" "https://schema.org/")
      | _ => Except.error "AttributeError"
    let grant := dictSet fkvs "@type" (.str t)
    if (pyGet1 grant "funder").isStr "DFG" then do
      let grant := dictSet grant "funder" (.str "Deutsche Forschungsgemeinschaft (DFG)")
      let idv ← match pyGet1 grant "identifier" with
        | .str s => Except.ok s
        | _ => Except.error "AttributeError"
      if pyStartswith idv "431549029-" then do
        let parts := rpartitionChar idv '-'
        let project := parts.1
        let subproject := parts.2.2
        let gepris_info := pyGet1 lookup (pyUpper subproject)
        if gepris_info.isNull then
          .ok [.dict parentGrantDict]
        else do
          let gname ← match gepris_info with
            | .dict gkvs =>
              match alookup gkvs "name" with
              | some v => Except.ok v
              | none => Except.error "KeyError"
            | _ => Except.error "TypeError"
          let gid ← match gepris_info with
            | .dict gkvs =>
              match alookup gkvs "identifier" with
              | some v => Except.ok v
              | none => Except.error "KeyError"
            | _ => Except.error "TypeError"
          let grant := dictSet grant "name" gname
          let grant := dictSet grant "identifier" gid
          let grant := dictSet grant "alternateName" (.str (pyUpper subproject))
          let grant := dictSet grant "isPartOf"
            (.str ("https://gepris.dfg.de/gepris/projekt/" ++ project))
          .ok [.dict parentGrantDict, .dict grant]
      else
        .ok [.dict (dictSet grant "identifier"
          (.str ("https://gepris.dfg.de/gepris/projekt/" ++ idv)))]
    else
      .ok [.dict grant]
  | _ => .error "AttributeError"

/-- Embedding of `load_tabby.process_funding`: wrap a single dict in a list and
process each item.  The source has no `None` check: iterating `None`
raises `TypeError`. -/
def process_funding (lookup : List (String × Val)) (funding : Val) : M Val :=
  match funding with
  | .dict kvs => (process_funding_one lookup (.dict kvs)).map (fun l => .list l)
  | .list xs => (xs.mapM (process_funding_one lookup)).map (fun ls => .list ls.flatten)
  | .str "" => .ok (.list [])
  | .str _ => .error "AttributeError"
  | _ => .error "TypeError"

/-! ### `queries.py`

The HTTP layer (`requests_cache` sessions, URL building, content
negotiation) is the I/O boundary: each query function is modelled as a
function of the response it receives, where the response carries the
status code and the body in the form the external parser
(`r.json()`, `ET.fromstring`, `BeautifulSoup`) delivers it, with parse
failures of those external libraries part of the response value. -/

/-- requests `Response.ok`: true when the status code is below 400. -/
def respOk (status : Nat) : Bool := status < 400

/-- A response consumed through `r.json()`. -/
structure JsonResponse where
  status : Nat
  body : M Val

/-- Model of an XML element (`xml.etree.ElementTree`). -/
inductive Xml where
  | elem (tag : String) (attrs : List (String × String)) (txt : Option String)
      (children : List Xml)

/-- Element tag. -/
def Xml.tag : Xml → String
  | .elem t _ _ _ => t

/-- Element text (`None` when absent, as in ElementTree). -/
def Xml.text : Xml → Option String
  | .elem _ _ t _ => t

/-- Child elements. -/
def Xml.children : Xml → List Xml
  | .elem _ _ _ c => c

/-- Attribute lookup. -/
def Xml.attr (x : Xml) (k : String) : Option String :=
  match x with
  | .elem _ attrs _ _ => (attrs.find? (fun kv => kv.1 = k)).map (fun kv => kv.2)

/-- The single-quote character (kept out of literals for the scanner). -/
def squote : Char := Char.ofNat 39

/-- One segment of an ElementTree path: an optional tag constraint
(none for the empty segment of a trailing slash, which matches any
child) and an optional `[@attr=value]` predicate. -/
structure XmlSeg where
  tagc : Option String
  attrName : Option String
  attrVal : String

/-- Parse one path segment, e.g. `publication_date[@media_type=...]`. -/
def parseSeg (seg : List Char) : XmlSeg :=
  if seg.isEmpty then ⟨none, none, ""⟩
  else
    let tagPart := seg.takeWhile (fun c => c ≠ '[')
    let rest := seg.dropWhile (fun c => c ≠ '[')
    if rest.isEmpty then ⟨some ⟨tagPart⟩, none, ""⟩
    else
      let an := (rest.drop 2).takeWhile (fun c => c ≠ '=')
      let av := (((rest.drop 2).dropWhile (fun c => c ≠ '=')).drop 2).takeWhile
        (fun c => c ≠ squote)
      ⟨some ⟨tagPart⟩, some ⟨an⟩, ⟨av⟩⟩

/-- Does an element match a path segment? -/
def segMatches (sg : XmlSeg) (x : Xml) : Bool :=
  (match sg.tagc with
    | none => true
    | some t => x.tag = t) &&
  (match sg.attrName with
    | none => true
    | some a => x.attr a == some sg.attrVal)

/-- ElementTree `find`: first element reached by matching each path
segment against successive children, in document order. -/
def Xml.find (x : Xml) (path : String) : Option Xml :=
  ((path.data.splitOnP (fun c => c = '/')).foldl
    (fun rs seg => rs.flatMap (fun e => e.children.filter (segMatches (parseSeg seg))))
    [x]).head?

/-- First child with the given (namespace-resolved) tag, modelling
`find` with an explicit namespace map. -/
def Xml.findChild (x : Xml) (tag : String) : Option Xml :=
  x.children.find? (fun c => c.tag = tag)

/-- A response consumed through `ET.fromstring(r.text)`. -/
structure XmlResponse where
  status : Nat
  xml : M Xml

/-- ElementTree element text as a Python value (`None` when absent). -/
def textVal : Option String → Val
  | some s => .str s
  | none => .null

/-- Model of `lxml`'s `html.fromstring(s).text_content()` used by
`queries.dehtmlize`: drop tags; an empty string raises (`ParserError`),
a non-string raises. -/
def dehtmlizeGo : Bool → List Char → List Char
  | _, [] => []
  | false, c :: rest =>
    if c = '<' then dehtmlizeGo true rest else c :: dehtmlizeGo false rest
  | true, c :: rest =>
    if c = '>' then dehtmlizeGo false rest else dehtmlizeGo true rest

/-- Embedding of `queries.dehtmlize` on a modelled value. -/
def dehtmlize : Val → M String
  | .str s => if s = "" then .error "ParserError" else .ok ⟨dehtmlizeGo false s.data⟩
  | _ => .error "ValueError"

/-- Embedding of `queries.author_from_csl`: keep the name components present. -/
def author_from_csl (author : Val) : M Val :=
  match author with
  | .dict kvs =>
    .ok (.dict ([("givenName", pyGet1 kvs "given"), ("familyName", pyGet1 kvs "family"),
      ("name", pyGet1 kvs "name")].filter (fun kv => !kv.2.isNull)))
  | _ => .error "AttributeError"

/-- Embedding of `queries.query_doi_org`: None on a not-ok response; otherwise the
CSL JSON body is reshaped into a catalog publication dict (raising on
missing/malformed required fields exactly where the source would:
`title` through `dehtmlize`, `author` by iterating it, `DOI` via
`startswith`, `issued.date-parts` via double indexing). -/
def query_doi_org (r : JsonResponse) : M (Option Val) :=
  if !respOk r.status then .ok none
  else do
    let res ← r.body
    match res with
    | .dict kvs => do
      let title ← dehtmlize (pyGet1 kvs "title")
      let datePublished ← do
        let issued ← match pyGet kvs "issued" (.dict []) with
          | .dict ikvs => Except.ok ikvs
          | _ => Except.error "AttributeError"
        match pyGet issued "date-parts" (.list [.list [.null]]) with
        | .list [] => Except.error "IndexError"
        | .list (first :: _) =>
          match first with
          | .list [] => Except.error "IndexError"
          | .list (v :: _) => Except.ok v
          | _ => Except.error "TypeError"
        | _ => Except.error "TypeError"
      let authors ← match pyGet1 kvs "author" with
        | .list xs => xs.mapM author_from_csl
        | _ => Except.error "TypeError"
      let pub := [("type", pyGet1 kvs "type"), ("title", .str title),
        ("doi", pyGet1 kvs "DOI"), ("datePublished", datePublished),
        ("publicationOutlet", pyGet1 kvs "container-title"), ("authors", .list authors)]
      let doiv ← match pyGet1 pub "doi" with
        | .str s => Except.ok (if pyStartswith s "http" then s else "https://doi.org/" ++ s)
        | _ => Except.error "AttributeError"
      let pub := dictSet pub "doi" (.str doiv)
      let pub :=
        if (pyGet1 pub "publicationOutlet").isEmptyList then
          (dictPop pub "publicationOutlet").2
        else pub
      .ok (some (.dict pub))
    | _ => .error "AttributeError"

/-- Window test for the ORCID regular expression of `unixref_journal`
(`0000-000(1-[5-9]|2-[0-9]|3-[0-4])[0-9]\x7b3\x7d-[0-9]\x7b3\x7d[0-9X]`,
a fixed-width 19-character pattern). -/
def orcidAt (cs : List Char) : Bool :=
  decide (cs.length ≥ 19) &&
  [0, 1, 2, 3, 5, 6, 7].all (fun i => cs.getD i ' ' == '0') &&
  (cs.getD 4 ' ' == '-') && (cs.getD 9 ' ' == '-') && (cs.getD 14 ' ' == '-') &&
  ((cs.getD 8 ' ' == '1' && ['5', '6', '7', '8', '9'].contains (cs.getD 10 ' ')) ||
    (cs.getD 8 ' ' == '2' && (cs.getD 10 ' ').isDigit) ||
    (cs.getD 8 ' ' == '3' && ['0', '1', '2', '3', '4'].contains (cs.getD 10 ' '))) &&
  [11, 12, 13, 15, 16, 17].all (fun i => (cs.getD i ' ').isDigit) &&
  ((cs.getD 18 ' ').isDigit || cs.getD 18 ' ' == 'X')

/-- Model of `re.search` for the ORCID pattern: first matching 19-character
window. -/
def reSearchOrcid : List Char → Option String
  | [] => none
  | c :: rest =>
    if orcidAt (c :: rest) then some ⟨(c :: rest).take 19⟩ else reSearchOrcid rest

/-- One contributor of `unixref_journal`: person names keep given name,
surname, suffix and an ORCID extracted by regular expression (raising
when the ORCID text is absent or the pattern does not match, as
`re.search(...).group()` would); organizations keep their text; unknown
tags are skipped. -/
def unixref_author (c : Xml) : M (Option Val) :=
  if c.tag = "person_name" then do
    let author : List (String × Val) := []
    let author := match c.find "given_name" with
      | some g => dictSet author "givenName" (textVal g.text)
      | none => author
    let author := match c.find "surname" with
      | some su => dictSet author "familyName" (textVal su.text)
      | none => author
    let author := match c.find "suffix" with
      | some su => dictSet author "honorificSuffix" (textVal su.text)
      | none => author
    let author ← match c.find "ORCID" with
      | some o =>
        match o.text with
        | none => Except.error "TypeError"
        | some t =>
          match reSearchOrcid t.data with
          | none => Except.error "AttributeError"
          | some idPart => Except.ok (dictSet author "identifiers"
              (.list [.dict [("type", .str "ORCID"), ("identifier", .str idPart)]]))
      | none => Except.ok author
    .ok (some (.dict author))
  else if c.tag = "organization" then
    .ok (some (.dict [("name", textVal c.text)]))
  else if c.tag = "anonymous" then
    .ok (some (.dict [("name", .str "anonymous")]))
  else
    .ok none

/-- The contributors loop of `unixref_journal`. -/
def unixref_contributors : List Xml → M (List Val)
  | [] => .ok []
  | c :: rest => do
    let a ← unixref_author c
    let tail ← unixref_contributors rest
    .ok (match a with
      | some av => av :: tail
      | none => tail)

/-- Embedding of `queries.unixref_journal`: translate a UNIXREF journal record into a
catalog publication dict. -/
def unixref_journal (elem : Xml) : M Val := do
  let publication : List (String × Val) := [("type", .str "journal-article")]
  let publication := match elem.find "journal_article/titles/title" with
    | some title => dictSet publication "title" (textVal title.text)
    | none => publication
  let publication ← match elem.find "journal_article/doi_data/doi" with
    | some doi =>
      match doi.text with
      | some t => Except.ok (dictSet publication "doi"
          (.str (if pyStartswith t "http" then t else "https://doi.org/" ++ t)))
      | none => Except.error "AttributeError"
    | none => Except.ok publication
  let dp := match elem.find
      "journal_article/publication_date[@media_type=\x27print\x27]/year" with
    | some d => some d
    | none => elem.find "journal_article/publication_date/year"
  let publication := match dp with
    | some d => dictSet publication "datePublished" (textVal d.text)
    | none => publication
  let publication := match elem.find "journal/journal_metadata/full_title" with
    | some po => dictSet publication "publicationOutlet" (textVal po.text)
    | none => publication
  match elem.find "journal_article/contributors" with
  | none => .ok (.dict publication)
  | some contributors => do
    let authors ← unixref_contributors contributors.children
    .ok (.dict (dictSet publication "authors" (.list authors)))

/-- Embedding of `queries.query_crossref_xml`: None on a not-ok response; otherwise
the first grandchild under `doi_record/crossref/` is translated when it
is a journal record, and `NotImplementedError` is raised for any other
record type (a missing element raises, as `elem.tag` on None would). -/
def query_crossref_xml (r : XmlResponse) : M (Option Val) :=
  if !respOk r.status then .ok none
  else do
    let root ← r.xml
    match root.find "doi_record/crossref/" with
    | none => .error "AttributeError"
    | some elem =>
      if elem.tag = "journal" then do
        let j ← unixref_journal elem
        .ok (some j)
      else
        .error "NotImplementedError"

/-- Embedding of `queries.ols_lookup`: the request URL is built from the term (the
ontology name is the lowercased part before the colon); a response with
status other than 200 produces a warning and None, otherwise the parsed
JSON body is returned as-is. -/
def ols_lookup (term : String) (r : JsonResponse) : M (Option Val) :=
  let _ontology := pyLower ⟨term.data.takeWhile (fun c => c ≠ ':')⟩
  if r.status ≠ 200 then .ok none
  else r.body.map some

/-- Embedding of `queries.query_cordis`: None on a not-ok response; otherwise grant
name and acronym are read from the namespaced `title` and `acronym`
elements (a missing element raises, as `.text` on None would). -/
def query_cordis (r : XmlResponse) : M (Option Val) :=
  if !respOk r.status then .ok none
  else do
    let root ← r.xml
    let nameText ← match root.findChild "\x7bhttp://cordis.europa.eu\x7dtitle" with
      | some t => Except.ok (textVal t.text)
      | none => Except.error "AttributeError"
    let acro ← match root.findChild "\x7bhttp://cordis.europa.eu\x7dacronym" with
      | some t => Except.ok (textVal t.text)
      | none => Except.error "AttributeError"
    .ok (some (.dict [("name", nameText), ("alternateName", acro)]))

/-- The BeautifulSoup view of a GEPRIS page: status code and the `h1`
elements, each as (class attribute, text content). -/
structure GeprisResponse where
  status : Nat
  h1s : List (Option String × String)

/-- Embedding of `queries.parse_gepris`: None on a not-ok response; otherwise the
text of the first `h1` whose class is not "hidden", whitespace
normalised (`soup.find` returning None makes `.get_text` raise). -/
def parse_gepris (r : GeprisResponse) : M (Option Val) :=
  if !respOk r.status then .ok none
  else
    match r.h1s.find? (fun h => h.1 != some "hidden") with
    | none => .error "AttributeError"
    | some h =>
      .ok (some (.dict [("name", .str (pyJoin " " (pySplitWs (pyStrip h.2))))]))

/-- Embedding of `queries.repr_ncbitaxon`: None responses return the default;
otherwise an OpenMINDS Species dict, with the genbank common name
synonym when an exact-synonym entry carries one. -/
def findGenbankSynonym : List Val → M (Option Val)
  | [] => .ok none
  | .dict skvs :: rest =>
    if (pyGet1 skvs "scope").isStr "hasExactSynonym" &&
        (pyGet1 skvs "type").isStr "genbank common name" then
      .ok (some (pyGet1 skvs "name"))
    else
      findGenbankSynonym rest
  | _ :: _ => .error "AttributeError"

/-- Embedding of `queries.repr_ncbitaxon`. -/
def repr_ncbitaxon (ols_response : Val) (dflt : Val) : M Val :=
  match ols_response with
  | .null => .ok dflt
  | .dict kvs => do
    let species := [("@type", .str "https://openminds.ebrains.eu/controlledTerms/Species"),
      ("name", pyGet1 kvs "label"), ("preferredOntologyIdentifier", pyGet1 kvs "iri")]
    let syn := pyGet1 kvs "obo_synonym"
    let syn := if syn.isNull then .list [] else syn
    let synList ← match syn with
      | .dict skvs => Except.ok [Val.dict skvs]
      | .list xs => Except.ok xs
      | .str _ => Except.error "AttributeError"
      | _ => Except.error "TypeError"
    let found ← findGenbankSynonym synList
    .ok (.dict (match found with
      | some n => dictSet species "synonym" n
      | none => species))
  | _ => .error "AttributeError"

/-- Embedding of `queries.repr_uberon`: None responses return the default; otherwise
an OpenMINDS UBERONParcellation dict. -/
def repr_uberon (ols_response : Val) (dflt : Val) : M Val :=
  let _unused := dflt
  match ols_response with
  | .null => .ok dflt
  | .dict kvs =>
    .ok (.dict [("@type",
        .str "https://openminds.ebrains.eu/controlledTerms/UBERONParcellation"),
      ("name", pyGet1 kvs "label"), ("preferredOntologyIdentifier", pyGet1 kvs "iri")])
  | _ => .error "AttributeError"

/-- Embedding of `queries.process_ols_term`: apply `filter_func` to the lookup result
of each term; `olsq` is the `ols_lookup` session oracle (None for a
non-200 response), and a non-string term raises inside `ols_lookup`. -/
def process_ols_term (olsq : String → M (Option Val)) (filter_func : Val → Val → M Val)
    (term : Val) : M Val :=
  match term with
  | .list xs =>
    (xs.mapM (fun (t : Val) =>
      match t with
      | .str s => do
        let rv ← olsq s
        filter_func (match rv with
          | some j => j
          | none => .null) (.str s)
      | _ => Except.error "AttributeError")).map .list
  | .str s => do
    let rv ← olsq s
    filter_func (match rv with
      | some j => j
      | none => .null) (.str s)
  | _ => .ok .null

/-! ### `load_tabby.py` top-level assembly

The script body between loading the record and calling
`catalog_validate`/`catalog_add` is modelled as a function of the
compacted record, the funding lookup table, the network oracles and the
skeleton dict returned by the external `get_metadata_item` (into which
the external call places `dataset_id` and `dataset_version`).  The
datalad self-description override, when the tabby path names a dataset
self-description, is the optional `(ds.id, ds.repo.get_hexsha())`
pair. -/

/-- The call of `mint_dataset_id` made by `load_tabby.py`, where both
arguments come out of the compacted record as modelled values: Python
`str.format` renders a `None` name as "None" and an int by its decimal
form; `project.lower()` (or `project[0].lower()`) raises on anything but
a string. -/
def mint_dataset_id_val (name project : Val) : M String := do
  let nameStr ← match name with
    | .str s => Except.ok s
    | .null => Except.ok "None"
    | .int n => Except.ok (toString n)
    | _ => Except.error "TypeError"
  let proj ← match project with
    | .str s => Except.ok (Sum.inl s)
    | .list [] => Except.error "IndexError"
    | .list (x :: _) =>
      match x with
      | .str s => Except.ok (Sum.inr [s])
      | _ => Except.error "AttributeError"
    | _ => Except.error "AttributeError"
  mint_dataset_id nameStr proj

/-- The `sfb_additional_content` dict of `load_tabby.py`, in source
order; the two `process_ols_term` results are passed in (they are
network lookups), the rest are computed by the embedded transformers. -/
def sfb_additional_content (sample_organism sample_part : Val)
    (compacted : List (String × Val)) : M (List (String × Val)) := do
  let dc ← process_data_controller (pyGet1 compacted "sfbDataController")
  let uf ← process_used_for (pyGet1 compacted "sfbUsedFor")
  .ok [("@context", .dict [
      ("homepage", .str "https://schema.org/mainEntityOfPage"),
      ("data controller", .str "https://w3id.org/dpv#hasDataController"),
      ("sample (organism)", .str "https://openminds.ebrains.eu/controlledTerms/Species"),
      ("sample (organism part)",
        .str "https://openminds.ebrains.eu/controlledTerms/UBERONParcellation"),
      ("CRC project", .str "https://schema.org/ResearchProject"),
      ("used for", .str "http://www.w3.org/ns/prov#hadUsage")]),
    ("sample (organism)", sample_organism),
    ("sample (organism part)", sample_part),
    ("homepage", process_homepage (pyGet1 compacted "sfbHomepage")),
    ("data controller", dc),
    ("CRC project", pyGet1 compacted "sfbProject"),
    ("used for", uf)]

/-- The field-by-field `meta_item` assignments of `load_tabby.py`, from
the external `get_metadata_item` skeleton (which carries the minted
dataset id and the version) through `access_request_contact`. -/
def meta_item_fields (base grant_lut : List (String × Val))
    (qdoi qcrossref : String → M (Option Val)) (qagency : String → M (Option String))
    (compacted : List (String × Val)) : M (List (String × Val)) := do
  let dsid ← mint_dataset_id_val (pyGet1 compacted "name") (pyGet1 compacted "sfbProject")
  let m := dictSet base "dataset_id" (.str dsid)
  let m := dictSet m "dataset_version" (pyGet1 compacted "version")
  let m := dictSet m "name" (pyGet1 compacted "title")
  let lic ← process_license (pyGet1 compacted "license")
  let m := dictSet m "license" lic
  let m := dictSet m "description" (pyGet1 compacted "description")
  let doi ← process_doi (pyGet1 compacted "doi")
  let m := dictSet m "doi" doi
  let auth ← process_authors (pyGet1 compacted "authors")
  let m := dictSet m "authors" auth
  let m := dictSet m "keywords" (process_keywords (pyGet1 compacted "keywords"))
  let fund ← process_funding grant_lut (pyGet1 compacted "funding")
  let m := dictSet m "funding" fund
  let pubs ← process_publications qdoi qcrossref qagency (pyGet1 compacted "publications")
  let m := dictSet m "publications" pubs
  let arc ← process_arc (pyGet1 compacted "sfbDataController")
  .ok (dictSet m "access_request_contact" arc)

/-- The `additional_display` entry built from the stripped
`sfb_additional_content` dict. -/
def additional_display_value (content : List (String × Val)) : Val :=
  .list [.dict [("name", .str "SFB1451"), ("icon", .str "fa-solid fa-flask"),
    ("content", .dict (content.filter (fun kv => !kv.2.isNull)))]]

/-- The tail of the script: the datalad self-description override, the
clone-URL entry, and the final comprehension stripping None values. -/
def meta_item_post (m : List (String × Val)) (selfdesc : Option (String × String))
    (clone : Val) : List (String × Val) :=
  let m := match selfdesc with
    | some ids => dictSet (dictSet m "dataset_id" (.str ids.1)) "dataset_version" (.str ids.2)
    | none => m
  let m := if clone.isNull then m else dictSet m "url" clone
  m.filter (fun kv => !kv.2.isNull)

/-- The dataset-level `meta_item` as assembled and stripped by
`load_tabby.py`, ending at the comprehension that removes `None`
values (the state passed to `pprint`/`catalog_validate`/
`catalog_add`). -/
def build_meta_item (base : List (String × Val)) (grant_lut : List (String × Val))
    (qdoi qcrossref : String → M (Option Val)) (qagency : String → M (Option String))
    (sample_organism sample_part : Val) (selfdesc : Option (String × String))
    (compacted : List (String × Val)) : M (List (String × Val)) := do
  let m ← meta_item_fields base grant_lut qdoi qcrossref qagency compacted
  let content ← sfb_additional_content sample_organism sample_part compacted
  let m := dictSet m "additional_display" (additional_display_value content)
  let clone ← process_homepage_as_url (pyGet1 compacted "sfbHomepage")
  .ok (meta_item_post m selfdesc clone)

/-- The formula the specification gives for `mint_dataset_id`: the
string form of `uuid5(uuid5(NAMESPACE_DNS, "datalad.org"),
"sfb1451." + p + "." + ds_name)`. -/
def mint_dataset_id_spec (ds_name p : String) : String :=
  uuid5Str (uuid5Bytes NAMESPACE_DNS (utf8 "datalad.org"))
    ("sfb1451." ++ p ++ "." ++ ds_name)

/-- An author list already in normalized catalog form: every element is
a dict whose keys are known catalog keys (hence no `orcid`) with
non-None values. -/
def authorsNormalized (xs : List Val) : Bool :=
  xs.all (fun a =>
    match a with
    | .dict kvs => kvs.all (fun kv => known_author_keys.contains kv.1 && !kv.2.isNull)
    | _ => false)

/-- The CSL JSON body used in the C3 counterexample. -/
def cslFixture : Val :=
  .dict [("type", .str "journal-article"), ("title", .str "T"),
    ("DOI", .str "10.1/x"),
    ("issued", .dict [("date-parts", .list [.list [.int 2020]])]),
    ("container-title", .str "J"), ("author", .list [])]

/-- The content dicts reachable under an `additional_display` value. -/
def contentDicts (v : Val) : List (List (String × Val)) :=
  match v with
  | .list ds => ds.flatMap (fun dv =>
      match dv with
      | .dict dkvs =>
        match alookup dkvs "content" with
        | some (.dict ckvs) => [ckvs]
        | _ => []
      | _ => [])
  | _ => []

/-- The compacted record used as the C8 witness input. -/
def tabbyRecordFixture : List (String × Val) :=
  [("name", .str "d"), ("sfbProject", .str "p"),
    ("funding", .list [.dict [("funder", .str "X")]])]

/-- The metadata item assembled from `tabbyRecordFixture`. -/
def metaItemFixture : List (String × Val) :=
  [("dataset_id", .str "522309fa-1d77-5876-81b5-cbb289c2b8b2"),
    ("funding", .list [.dict [("funder", .str "X"), ("@type", .str "")]]),
    ("additional_display", .list [.dict [("name", .str "SFB1451"),
      ("icon", .str "fa-solid fa-flask"),
      ("content", .dict [("@context", .dict [
        ("homepage", .str "https://schema.org/mainEntityOfPage"),
        ("data controller", .str "https://w3id.org/dpv#hasDataController"),
        ("sample (organism)",
          .str "https://openminds.ebrains.eu/controlledTerms/Species"),
        ("sample (organism part)",
          .str "https://openminds.ebrains.eu/controlledTerms/UBERONParcellation"),
        ("CRC project", .str "https://schema.org/ResearchProject"),
        ("used for", .str "http://www.w3.org/ns/prov#hadUsage")]),
        ("CRC project", .str "p")])]])]

/-! ## Theorems -/

/-- Bind of a successful `Except` computation. -/
theorem okBind {α β : Type} (a : α) (f : α → M β) : (Except.ok a >>= f) = f a := rfl

/-- Inversion of a successful `Except` bind. -/
theorem bind_eq_ok {α β : Type} {x : M α} {f : α → M β} {b : β} :
    (x >>= f) = .ok b ↔ ∃ a, x = .ok a ∧ f a = .ok b := by
  cases x with
  | error e =>
    rw [show ((Except.error e : M α) >>= f) = (Except.error e : M β) from rfl]
    simp
  | ok a => rw [okBind]; simp

example : mint_dataset_id "mydata" (Sum.inl "Z03") =
    .ok "5927efb0-7270-5d71-9786-32fa2f6fb39b" := rfl

example : mint_dataset_id "x.b" (Sum.inl "a") =
    .ok "19984b45-69bd-545b-a37c-81192d1adffe" := rfl

example : urlparse "https://github.com/user/repo" =
    .ok ⟨"https", "github.com", "/user/repo", "", ""⟩ := rfl
example : urlparse "https://github.com" = .ok ⟨"https", "github.com", "", "", ""⟩ := rfl
example : urlparse "plain text" = .ok ⟨"", "", "plain text", "", ""⟩ := rfl
example : urlparse "http://[" = .error "ValueError" := rfl
example : urlparse "[" = .ok ⟨"", "", "[", "", ""⟩ := rfl

example : process_homepage_as_url (.str "https://github.com/a/b") =
    .ok (.list [.str "https://github.com/a/b"]) := rfl
example : process_homepage_as_url (.list [.str "https://example.com/a"]) = .ok .null := rfl

example : process_funding [] .null = .error "TypeError" := rfl
example :
    process_funding [] (.dict [("funder", .str "DFG"), ("identifier", .str "123")]) =
      .ok (.list [.dict [("funder", .str "Deutsche Forschungsgemeinschaft (DFG)"),
        ("identifier", .str "https://gepris.dfg.de/gepris/projekt/123"),
        ("@type", .str "")]]) := rfl

example :
    build_meta_item [] [] (fun _ => .ok none) (fun _ => .ok none) (fun _ => .ok none)
      .null .null none
      [("name", .str "d"), ("sfbProject", .str "p"),
        ("funding", .list [.dict [("funder", .str "X")]])] =
    .ok [("dataset_id", .str "522309fa-1d77-5876-81b5-cbb289c2b8b2"),
      ("funding", .list [.dict [("funder", .str "X"), ("@type", .str "")]]),
      ("additional_display", .list [.dict [("name", .str "SFB1451"),
        ("icon", .str "fa-solid fa-flask"),
        ("content", .dict [("@context", .dict [
          ("homepage", .str "https://schema.org/mainEntityOfPage"),
          ("data controller", .str "https://w3id.org/dpv#hasDataController"),
          ("sample (organism)",
            .str "https://openminds.ebrains.eu/controlledTerms/Species"),
          ("sample (organism part)",
            .str "https://openminds.ebrains.eu/controlledTerms/UBERONParcellation"),
          ("CRC project", .str "https://schema.org/ResearchProject"),
          ("used for", .str "http://www.w3.org/ns/prov#hadUsage")]),
          ("CRC project", .str "p")])]])] := rfl

/-- The template of `mint_dataset_id` instantiates to
`sfb1451.<project>.<name>`. -/
theorem pyFormat_sfb (n q : String) :
    pyFormat "sfb1451.\x7bproject\x7d.\x7bname\x7d" [("name", n), ("project", q)] =
      .ok ("sfb1451." ++ q ++ "." ++ n) := by
  have h1 : formatGo [("name", n), ("project", q)] 25
      ("sfb1451.\x7bproject\x7d.\x7bname\x7d").data =
      Except.ok ('s' :: 'f' :: 'b' :: '1' :: '4' :: '5' :: '1' :: '.' ::
        (q.data ++ ('.' :: (n.data ++ [])))) := rfl
  show (formatGo [("name", n), ("project", q)] 25
      ("sfb1451.\x7bproject\x7d.\x7bname\x7d").data).map (fun cs => String.mk cs) =
    Except.ok ("sfb1451." ++ q ++ "." ++ n)
  rw [h1]
  show Except.ok (String.mk _) = _
  apply congrArg
  apply congrArg
  show 's' :: 'f' :: 'b' :: '1' :: '4' :: '5' :: '1' :: '.' ::
      (q.data ++ ('.' :: (n.data ++ []))) =
    ((("sfb1451.".data ++ q.data) ++ ".".data) ++ n.data)
  simp

/-- C1 (counterexample): `mint_dataset_id` is not collision-free — the
distinct pairs ("x.b", "a") and ("b", "a.x") both format to
`sfb1451.a.x.b` and therefore receive the same UUID string. -/
theorem C1_mint_collision :
    mint_dataset_id "x.b" (Sum.inl "a") = mint_dataset_id "b" (Sum.inl "a.x") ∧
    ("x.b", "a") ≠ ("b", "a.x") := by
  refine ⟨?_, by decide⟩
  have ha : mint_dataset_id "x.b" (Sum.inl "a") =
      .ok "19984b45-69bd-545b-a37c-81192d1adffe" := rfl
  have hb : mint_dataset_id "b" (Sum.inl "a.x") =
      .ok "19984b45-69bd-545b-a37c-81192d1adffe" := rfl
  exact ha.trans hb.symm

/-- C1 (amended): `mint_dataset_id` is deterministic but only through
the formatted string: any two (name, project) pairs whose
`sfb1451.<lowercased project>.<name>` strings coincide receive the same
UUID, so distinct pairs can collide. -/
theorem C1_mint_factors (n1 p1 n2 p2 : String)
    (h : "sfb1451." ++ pyLower p1 ++ "." ++ n1 = "sfb1451." ++ pyLower p2 ++ "." ++ n2) :
    mint_dataset_id n1 (Sum.inl p1) = mint_dataset_id n2 (Sum.inl p2) := by
  show (pyFormat "sfb1451.\x7bproject\x7d.\x7bname\x7d"
      [("name", n1), ("project", pyLower p1)]).map
      (fun raw => uuid5Str (uuid5Bytes NAMESPACE_DNS (utf8 "datalad.org")) raw) =
    (pyFormat "sfb1451.\x7bproject\x7d.\x7bname\x7d"
      [("name", n2), ("project", pyLower p2)]).map
      (fun raw => uuid5Str (uuid5Bytes NAMESPACE_DNS (utf8 "datalad.org")) raw)
  rw [pyFormat_sfb, pyFormat_sfb, h]

/-- Witness for C1_mint_factors at ("x.b", "A") and ("b", "a.x"). -/
theorem C1_mint_factors_witness :
    ("sfb1451." ++ pyLower "A" ++ "." ++ "x.b" =
      "sfb1451." ++ pyLower "a.x" ++ "." ++ "b") ∧
    mint_dataset_id "x.b" (Sum.inl "A") = mint_dataset_id "b" (Sum.inl "a.x") :=
  ⟨by decide, C1_mint_factors "x.b" "A" "b" "a.x" (by decide)⟩

/-- C2: for every name and every project that is a string or non-empty
list of strings, `mint_dataset_id` returns exactly the spec's formula,
with p the (first) project lowercased. -/
theorem C2_mint_matches_spec (ds : String) (project : String ⊕ List String)
    (h : project ≠ Sum.inr []) :
    mint_dataset_id ds project = .ok (mint_dataset_id_spec ds
      (match project with
        | Sum.inl s => pyLower s
        | Sum.inr l => pyLower (l.headD ""))) := by
  match project with
  | Sum.inl s =>
    show (pyFormat "sfb1451.\x7bproject\x7d.\x7bname\x7d"
        [("name", ds), ("project", pyLower s)]).map
        (fun raw => uuid5Str (uuid5Bytes NAMESPACE_DNS (utf8 "datalad.org")) raw) = _
    rw [pyFormat_sfb]
    rfl
  | Sum.inr [] => exact absurd rfl h
  | Sum.inr (x :: rest) =>
    show (pyFormat "sfb1451.\x7bproject\x7d.\x7bname\x7d"
        [("name", ds), ("project", pyLower x)]).map
        (fun raw => uuid5Str (uuid5Bytes NAMESPACE_DNS (utf8 "datalad.org")) raw) = _
    rw [pyFormat_sfb]
    rfl

/-- Witness for C2_mint_matches_spec on name "mydata", project list
["Z03", "B02"]. -/
theorem C2_mint_matches_spec_witness :
    (Sum.inr ["Z03", "B02"] ≠ (Sum.inr [] : String ⊕ List String)) ∧
    mint_dataset_id "mydata" (Sum.inr ["Z03", "B02"]) =
      .ok (mint_dataset_id_spec "mydata" (pyLower "Z03")) :=
  ⟨by decide, C2_mint_matches_spec "mydata" (Sum.inr ["Z03", "B02"]) (by decide)⟩

/-- C4 (counterexample): `process_funding` has no None check — iterating
None raises `TypeError` instead of returning None. -/
theorem C4_funding_none_raises : process_funding [] .null = .error "TypeError" := rfl

/-- C4 (amended): every listed transformer except `process_funding`
returns None on None input without raising; `process_funding` raises
`TypeError` on None. -/
theorem C4_none_passthrough :
    process_authors .null = .ok .null ∧
    process_license .null = .ok .null ∧
    (∀ qdoi qcrossref qagency,
      process_publications qdoi qcrossref qagency .null = .ok .null) ∧
    process_used_for .null = .ok .null ∧
    process_data_controller .null = .ok .null ∧
    process_arc .null = .ok .null ∧
    process_homepage .null = .null ∧
    ∀ lut, process_funding lut .null = .error "TypeError" :=
  ⟨rfl, rfl, fun _ _ _ => rfl, rfl, rfl, rfl, rfl, fun _ => rfl⟩

/-- C6 (counterexample): `process_license` does not return a dict for
every string — the `urlparse` call raises `ValueError` ("Invalid IPv6
URL") on a netloc with an unmatched bracket, and the exception
propagates out of `process_license`. -/
theorem C6_invalid_url_counterexample :
    process_license (.str "http://[") = .error "ValueError" ∧
    (Except.error "ValueError" : M Val) ≠
      .ok (.dict [("name", .str "http://["), ("url", .str "http://[")]) :=
  ⟨rfl, fun h => Except.noConfusion h⟩

/-- C6 (amended): `process_license` maps None to None, and maps any
string on which `urlparse` succeeds to the dict carrying that string as
both name and url. -/
theorem C6_process_license :
    process_license .null = .ok .null ∧
    ∀ s : String, ∀ u : UrlParts, urlparse s = .ok u →
      process_license (.str s) =
        .ok (.dict [("name", .str s), ("url", .str s)]) := by
  refine ⟨rfl, ?_⟩
  intro s u hu
  show (urlparse s >>= fun _parsed =>
    (Except.ok (Val.dict [("name", Val.str s), ("url", Val.str s)]) : M Val)) =
    Except.ok (Val.dict [("name", Val.str s), ("url", Val.str s)])
  rw [hu, okBind]

/-- Witness for C6_process_license on the spec's example string. -/
theorem C6_process_license_witness :
    urlparse "http://x" = .ok ⟨"http", "x", "", "", ""⟩ ∧
    process_license (.str "http://x") =
      .ok (.dict [("name", .str "http://x"), ("url", .str "http://x")]) :=
  ⟨rfl, C6_process_license.2 "http://x" ⟨"http", "x", "", "", ""⟩ rfl⟩

/-- C7: `process_keywords` wraps a string into a one-element list and
returns any list unchanged. -/
theorem C7_process_keywords :
    (∀ s : String, process_keywords (.str s) = .list [.str s]) ∧
    ∀ xs : List Val, process_keywords (.list xs) = .list xs :=
  ⟨fun _ => rfl, fun _ => rfl⟩

/-- Lookup misses when no binding has the key. -/
theorem alookup_eq_none_of_keys (kvs : List (String × Val)) (key : String)
    (h : ∀ kv ∈ kvs, kv.1 ≠ key) : alookup kvs key = none := by
  induction kvs with
  | nil => rfl
  | cons kv rest ih =>
    have h1 : kv.1 ≠ key := h kv (List.mem_cons_self kv rest)
    simp only [alookup, if_neg h1]
    exact ih (fun x hx => h x (List.mem_cons_of_mem _ hx))

/-- C5 (counterexample): a normalized author dict whose known key holds
None is not a fixed point of `process_authors` — the None-valued key is
dropped. -/
theorem C5_authors_drops_none_value :
    process_authors (.list [.dict [("name", .null),
      ("identifiers", .list [.dict [("name", .str "ORCID"),
        ("identifier", .str "0000-0002-1825-0097")]])]]) =
      .ok (.list [.dict [("identifiers", .list [.dict [("name", .str "ORCID"),
        ("identifier", .str "0000-0002-1825-0097")]])]]) ∧
    Val.list [.dict [("name", .null),
      ("identifiers", .list [.dict [("name", .str "ORCID"),
        ("identifier", .str "0000-0002-1825-0097")]])]] ≠
      Val.list [.dict [("identifiers", .list [.dict [("name", .str "ORCID"),
        ("identifier", .str "0000-0002-1825-0097")]])]] :=
  ⟨rfl, by simp⟩

/-- C5 (amended): `process_authors` is the identity on author lists in
normalized form with non-None values (known catalog keys only, an
existing `identifiers` list allowed, no `orcid` key); in particular
re-applying it does not duplicate or alter ORCID identifier entries. -/
theorem C5_authors_idempotent (xs : List Val) (h : authorsNormalized xs = true) :
    process_authors (.list xs) = .ok (.list xs) := by
  induction xs with
  | nil => rfl
  | cons a rest ih =>
    simp only [authorsNormalized, List.all_cons, Bool.and_eq_true] at h
    obtain ⟨ha, hrest⟩ := h
    have ih2 := ih hrest
    match a, ha with
    | .dict kvs, ha =>
      have hall := List.all_eq_true.mp ha
      have hfilter : kvs.filter
          (fun kv => known_author_keys.contains kv.1 && !kv.2.isNull) = kvs :=
        List.filter_eq_self.mpr hall
      have horcid : alookup kvs "orcid" = none := by
        apply alookup_eq_none_of_keys
        intro kv hkv
        have hk := (Bool.and_eq_true _ _).mp (hall kv hkv) |>.1
        have hmem : kv.1 ∈ known_author_keys := by
          simpa using hk
        intro heq
        rw [heq] at hmem
        simp [known_author_keys] at hmem
      have hget : pyGet kvs "orcid" (.bool false) = .bool false := by
        show (alookup kvs "orcid").getD (.bool false) = .bool false
        rw [horcid]
        rfl
      have hone : process_author_one (.dict kvs) = .ok (.dict kvs) := by
        simp only [process_author_one, hget, hfilter]
        rfl
      have hmm : process_authors_list rest = .ok rest := by
        revert ih2
        cases hm : process_authors_list rest with
        | error e => intro ih2; exact absurd ih2 (by simp [process_authors, hm, Except.map])
        | ok ys =>
          intro ih2
          simp only [process_authors, hm, Except.map] at ih2
          obtain rfl : ys = rest := by
            injection ih2 with h1
            injection h1
          rfl
      show (process_authors_list (Val.dict kvs :: rest)).map Val.list =
        .ok (.list (Val.dict kvs :: rest))
      show (process_author_one (Val.dict kvs) >>= fun d =>
        process_authors_list rest >>= fun tail => Except.ok (d :: tail)).map Val.list = _
      rw [hone, okBind, hmm, okBind]
      rfl

/-- Witness for C5_authors_idempotent on a one-author normalized list
with an existing ORCID identifiers entry. -/
theorem C5_authors_idempotent_witness :
    authorsNormalized [.dict [("name", .str "Ann B"),
      ("identifiers", .list [.dict [("name", .str "ORCID"),
        ("identifier", .str "0000-0002-1825-0097")]])]] = true ∧
    process_authors (.list [.dict [("name", .str "Ann B"),
      ("identifiers", .list [.dict [("name", .str "ORCID"),
        ("identifier", .str "0000-0002-1825-0097")]])]]) =
      .ok (.list [.dict [("name", .str "Ann B"),
        ("identifiers", .list [.dict [("name", .str "ORCID"),
          ("identifier", .str "0000-0002-1825-0097")]])]]) :=
  ⟨rfl, C5_authors_idempotent _ rfl⟩

/-- Elements kept by the filtering loop of `process_homepage_as_url`:
whenever the loop returns on a list of strings, every kept element is
an input whose URL parses to a known host with a non-empty path. -/
theorem hp_url_loop_strings (xs : List Val) (h : ∀ x ∈ xs, ∃ t, x = Val.str t) :
    ∀ ys, hp_url_loop xs = .ok ys →
      ∀ y ∈ ys, y ∈ xs ∧ ∃ t, y = Val.str t ∧ ∃ u, urlparse t = .ok u ∧
        u.netloc ∈ known_locations ∧ u.path ≠ "" := by
  induction xs with
  | nil =>
    intro ys hys
    obtain rfl : ([] : List Val) = ys := Except.ok.inj hys
    intro y hy
    cases hy
  | cons x rest ih =>
    intro ys hys
    obtain ⟨t, rfl⟩ := h x (List.mem_cons_self x rest)
    rw [show hp_url_loop (Val.str t :: rest) = (urlparse t >>= fun parsed =>
      hp_url_loop rest >>= fun tail =>
      if known_locations.contains parsed.netloc ∧ parsed.path ≠ "" then
        Except.ok (Val.str t :: tail)
      else
        Except.ok tail) from rfl] at hys
    rw [bind_eq_ok] at hys
    obtain ⟨u, hu, hys⟩ := hys
    rw [bind_eq_ok] at hys
    obtain ⟨tail, htail, hys⟩ := hys
    have ihtail := ih (fun z hz => h z (List.mem_cons_of_mem _ hz)) tail htail
    by_cases hc : known_locations.contains u.netloc ∧ u.path ≠ ""
    · rw [if_pos hc] at hys
      obtain rfl : Val.str t :: tail = ys := Except.ok.inj hys
      intro y hy
      rcases List.mem_cons.mp hy with rfl | hy2
      · refine ⟨List.mem_cons_self _ _, t, rfl, u, hu, ?_, hc.2⟩
        simpa using hc.1
      · obtain ⟨hmem, tprop⟩ := ihtail y hy2
        exact ⟨List.mem_cons_of_mem _ hmem, tprop⟩
    · rw [if_neg hc] at hys
      obtain rfl : tail = ys := Except.ok.inj hys
      intro y hy
      obtain ⟨hmem, tprop⟩ := ihtail y hy
      exact ⟨List.mem_cons_of_mem _ hmem, tprop⟩

/-- C9 (counterexample): `process_homepage_as_url` does not return None
or a list on every list of strings — a URL whose netloc has an
unmatched bracket makes the `urlparse` call raise `ValueError`, which
propagates. -/
theorem C9_invalid_url_counterexample :
    process_homepage_as_url (.list [.str "http://["]) = .error "ValueError" ∧
    ∀ v : Val, (Except.error "ValueError" : M Val) ≠ .ok v :=
  ⟨rfl, fun _ h => Except.noConfusion h⟩

/-- C9 (amended): on None, a string, or a list of strings,
`process_homepage_as_url` either raises the `ValueError` coming from
`urlparse` or returns: never an empty list, but None or a non-empty
list whose elements are input URLs with a known network location and a
non-empty path. -/
theorem C9_homepage_as_url (homepage : Val)
    (h : homepage = .null ∨ (∃ s, homepage = .str s) ∨
      (∃ xs, homepage = .list xs ∧ ∀ x ∈ xs, ∃ t, x = .str t)) :
    ∀ v, process_homepage_as_url homepage = .ok v →
      v = .null ∨ ∃ ys, v = .list ys ∧ ys ≠ [] ∧
      ∀ y ∈ ys, (∃ t, y = .str t ∧ ∃ u, urlparse t = .ok u ∧
        u.netloc ∈ known_locations ∧ u.path ≠ "") ∧
      (match homepage with
        | .str s => y = .str s
        | .list xs => y ∈ xs
        | _ => False) := by
  rcases h with rfl | ⟨s, rfl⟩ | ⟨xs, rfl, hstr⟩
  · intro v hv
    exact Or.inl (Except.ok.inj hv).symm
  · intro v hv
    rw [show process_homepage_as_url (.str s) = (hp_url_loop [.str s] >>= fun url =>
      Except.ok (if url.length > 0 then Val.list url else Val.null)) from rfl] at hv
    rw [bind_eq_ok] at hv
    obtain ⟨ys, hys, hv⟩ := hv
    obtain rfl : (if ys.length > 0 then Val.list ys else Val.null) = v :=
      Except.ok.inj hv
    have hprop := hp_url_loop_strings [.str s] (by
      intro x hx
      simp only [List.mem_singleton] at hx
      exact ⟨s, hx⟩) ys hys
    cases ys with
    | nil => exact Or.inl rfl
    | cons y0 ytail =>
      right
      refine ⟨y0 :: ytail, by simp, by simp, ?_⟩
      intro y hy
      obtain ⟨hmem, tprop⟩ := hprop y hy
      have hys2 : y = .str s := by simpa using hmem
      exact ⟨tprop, hys2⟩
  · intro v hv
    rw [show process_homepage_as_url (.list xs) = (hp_url_loop xs >>= fun url =>
      Except.ok (if url.length > 0 then Val.list url else Val.null)) from rfl] at hv
    rw [bind_eq_ok] at hv
    obtain ⟨ys, hys, hv⟩ := hv
    obtain rfl : (if ys.length > 0 then Val.list ys else Val.null) = v :=
      Except.ok.inj hv
    have hprop := hp_url_loop_strings xs hstr ys hys
    cases ys with
    | nil => exact Or.inl rfl
    | cons y0 ytail =>
      right
      refine ⟨y0 :: ytail, by simp, by simp, ?_⟩
      intro y hy
      obtain ⟨hmem, tprop⟩ := hprop y hy
      exact ⟨tprop, hmem⟩

/-- Witness for C9_homepage_as_url on a GitHub URL string. -/
theorem C9_homepage_as_url_witness :
    (Val.str "https://github.com/a/b" = .null ∨
      (∃ s, Val.str "https://github.com/a/b" = .str s) ∨
      (∃ xs, Val.str "https://github.com/a/b" = .list xs ∧
        ∀ x ∈ xs, ∃ t, x = Val.str t)) ∧
    (Val.list [.str "https://github.com/a/b"] = .null ∨
    ∃ ys, Val.list [.str "https://github.com/a/b"] = .list ys ∧ ys ≠ [] ∧
      ∀ y ∈ ys, (∃ t, y = .str t ∧ ∃ u, urlparse t = .ok u ∧
        u.netloc ∈ known_locations ∧ u.path ≠ "") ∧
      (match Val.str "https://github.com/a/b" with
        | .str s => y = .str s
        | .list xs => y ∈ xs
        | _ => False)) :=
  ⟨Or.inr (Or.inl ⟨_, rfl⟩),
    C9_homepage_as_url (.str "https://github.com/a/b") (Or.inr (Or.inl ⟨_, rfl⟩))
      (.list [.str "https://github.com/a/b"]) rfl⟩

/-- Every element of `dictSet l k v` is `(k, v)` or came from `l`. -/
theorem mem_dictSet {l : List (String × Val)} {k : String} {v : Val} :
    ∀ kv ∈ dictSet l k v, kv = (k, v) ∨ kv ∈ l := by
  intro kv hm
  unfold dictSet at hm
  by_cases hc : l.any (fun kv2 => kv2.1 = k)
  · rw [if_pos hc] at hm
    obtain ⟨kv0, hkv0, heq⟩ := List.mem_map.mp hm
    by_cases h0 : kv0.1 = k
    · rw [if_pos h0] at heq; exact Or.inl heq.symm
    · rw [if_neg h0] at heq; exact Or.inr (heq ▸ hkv0)
  · rw [if_neg hc] at hm
    rcases List.mem_append.mp hm with h1 | h1
    · exact Or.inr h1
    · exact Or.inl (by simpa using h1)

/-- An element of `dictSet l k v` carrying the key `k` is `(k, v)`. -/
theorem mem_dictSet_key {l : List (String × Val)} {k : String} {v : Val} :
    ∀ kv ∈ dictSet l k v, kv.1 = k → kv = (k, v) := by
  intro kv hm hk
  unfold dictSet at hm
  by_cases hc : l.any (fun kv2 => kv2.1 = k)
  · rw [if_pos hc] at hm
    obtain ⟨kv0, hkv0, heq⟩ := List.mem_map.mp hm
    by_cases h0 : kv0.1 = k
    · rw [if_pos h0] at heq; exact heq.symm
    · rw [if_neg h0] at heq
      exact absurd (heq ▸ hk) h0
  · rw [if_neg hc] at hm
    rcases List.mem_append.mp hm with h1 | h1
    · exact absurd (List.any_eq_true.mpr ⟨kv, h1, by simpa using hk⟩) hc
    · simpa using h1

/-- Replacing one key leaves lookups of other keys unchanged (the map
half of `dictSet`). -/
theorem alookup_map_replace (l : List (String × Val)) (k k2 : String) (v : Val)
    (h : k ≠ k2) :
    alookup (l.map (fun kv => if kv.1 = k2 then (k2, v) else kv)) k = alookup l k := by
  induction l with
  | nil => rfl
  | cons kv rest ih =>
    obtain ⟨k1, v1⟩ := kv
    simp only [List.map_cons]
    by_cases h0 : k1 = k2
    · rw [show (if (k1, v1).1 = k2 then (k2, v) else (k1, v1)) = (k2, v) from if_pos h0]
      show (if k2 = k then some v else alookup (rest.map _) k) =
        if k1 = k then some v1 else alookup rest k
      rw [if_neg (Ne.symm h), if_neg (show ¬ k1 = k from fun hk => h (hk ▸ h0)), ih]
    · rw [show (if (k1, v1).1 = k2 then (k2, v) else (k1, v1)) = (k1, v1) from if_neg h0]
      show (if k1 = k then some v1 else alookup (rest.map _) k) =
        if k1 = k then some v1 else alookup rest k
      by_cases h1 : k1 = k
      · rw [if_pos h1, if_pos h1]
      · rw [if_neg h1, if_neg h1, ih]

/-- Appending a fresh key leaves lookups of other keys unchanged (the
append half of `dictSet`). -/
theorem alookup_append_single_ne (l : List (String × Val)) (k k2 : String) (v : Val)
    (h : k ≠ k2) : alookup (l ++ [(k2, v)]) k = alookup l k := by
  induction l with
  | nil =>
    show (if k2 = k then some v else none) = none
    rw [if_neg (Ne.symm h)]
  | cons kv rest ih =>
    obtain ⟨k1, v1⟩ := kv
    show (if k1 = k then some v1 else alookup (rest ++ [(k2, v)]) k) =
      if k1 = k then some v1 else alookup rest k
    by_cases h1 : k1 = k
    · rw [if_pos h1, if_pos h1]
    · rw [if_neg h1, if_neg h1, ih]

/-- Setting one key leaves lookups of other keys unchanged. -/
theorem alookup_dictSet_ne (l : List (String × Val)) (k k2 : String) (v : Val)
    (h : k ≠ k2) : alookup (dictSet l k2 v) k = alookup l k := by
  unfold dictSet
  by_cases hc : l.any (fun kv => kv.1 = k2)
  · rw [if_pos hc]; exact alookup_map_replace l k k2 v h
  · rw [if_neg hc]; exact alookup_append_single_ne l k k2 v h

/-- Replacement map half of `dictSet` when the key occurs. -/
theorem alookup_map_self (l : List (String × Val)) (k : String) (v : Val)
    (hc : ∃ kv ∈ l, kv.1 = k) :
    alookup (l.map (fun kv => if kv.1 = k then (k, v) else kv)) k = some v := by
  induction l with
  | nil =>
    obtain ⟨kv, hm, _⟩ := hc
    cases hm
  | cons kv rest ih =>
    obtain ⟨k1, v1⟩ := kv
    simp only [List.map_cons]
    by_cases h0 : k1 = k
    · rw [show (if (k1, v1).1 = k then (k, v) else (k1, v1)) = (k, v) from if_pos h0]
      show (if k = k then some v else alookup (rest.map _) k) = some v
      rw [if_pos rfl]
    · rw [show (if (k1, v1).1 = k then (k, v) else (k1, v1)) = (k1, v1) from if_neg h0]
      show (if k1 = k then some v1 else alookup (rest.map _) k) = some v
      rw [if_neg h0]
      apply ih
      obtain ⟨kv0, hm, hk0⟩ := hc
      rcases List.mem_cons.mp hm with heq | hm2
      · exact absurd (show k1 = k by rw [heq] at hk0; exact hk0) h0
      · exact ⟨kv0, hm2, hk0⟩

/-- Append half of `dictSet` when the key is fresh. -/
theorem alookup_append_self (l : List (String × Val)) (k : String) (v : Val)
    (hc : ∀ kv ∈ l, kv.1 ≠ k) :
    alookup (l ++ [(k, v)]) k = some v := by
  induction l with
  | nil =>
    show (if k = k then some v else none) = some v
    rw [if_pos rfl]
  | cons kv rest ih =>
    obtain ⟨k1, v1⟩ := kv
    show (if k1 = k then some v1 else alookup (rest ++ [(k, v)]) k) = some v
    rw [if_neg (hc (k1, v1) (List.mem_cons_self _ _))]
    exact ih (fun x hx => hc x (List.mem_cons_of_mem _ hx))

/-- Looking up the key just set yields the new value. -/
theorem alookup_dictSet_self (l : List (String × Val)) (k : String) (v : Val) :
    alookup (dictSet l k v) k = some v := by
  unfold dictSet
  by_cases hc : l.any (fun kv => kv.1 = k)
  · rw [if_pos hc]
    apply alookup_map_self
    obtain ⟨kv0, hm, hk0⟩ := List.any_eq_true.mp hc
    exact ⟨kv0, hm, by simpa using hk0⟩
  · rw [if_neg hc]
    apply alookup_append_self
    intro kv hm hk
    exact hc (List.any_eq_true.mpr ⟨kv, hm, by simpa using hk⟩)

/-- Stripping None values keeps the binding of a key whose value is not
None. -/
theorem alookup_filter_keep (l : List (String × Val)) (k : String) (v : Val)
    (hv : v.isNull = false) (h : alookup l k = some v) :
    alookup (l.filter (fun kv => !kv.2.isNull)) k = some v := by
  induction l with
  | nil => cases h
  | cons kv rest ih =>
    obtain ⟨k1, v1⟩ := kv
    rw [show alookup ((k1, v1) :: rest) k =
      if k1 = k then some v1 else alookup rest k from rfl] at h
    by_cases h0 : k1 = k
    · rw [if_pos h0] at h
      obtain rfl : v1 = v := Option.some.inj h
      rw [show ((k1, v1) :: rest).filter (fun kv => !kv.2.isNull) =
        (k1, v1) :: rest.filter (fun kv => !kv.2.isNull) from by
          simp [List.filter_cons, hv]]
      show (if k1 = k then some v1 else _) = some v1
      rw [if_pos h0]
    · rw [if_neg h0] at h
      by_cases hkeep : v1.isNull
      · rw [show ((k1, v1) :: rest).filter (fun kv => !kv.2.isNull) =
          rest.filter (fun kv => !kv.2.isNull) from by simp [List.filter_cons, hkeep]]
        exact ih h
      · rw [show ((k1, v1) :: rest).filter (fun kv => !kv.2.isNull) =
          (k1, v1) :: rest.filter (fun kv => !kv.2.isNull) from by
            simp [List.filter_cons, hkeep]]
        show (if k1 = k then some v1 else _) = some v
        rw [if_neg h0]
        exact ih h

/-- C3 (counterexample): the status check is `r.ok` (status below 400),
not "2xx" — a 301 response with a well-formed CSL body makes
`query_doi_org` return a publication dict, not None; and a 200 response
whose record is not a journal makes `query_crossref_xml` raise
`NotImplementedError` rather than return a dict or None. -/
theorem C3_ok_check_counterexample :
    (301 < 200 ∨ 300 ≤ 301) ∧
    query_doi_org ⟨301, .ok cslFixture⟩ =
      .ok (some (.dict [("type", .str "journal-article"), ("title", .str "T"),
        ("doi", .str "https://doi.org/10.1/x"), ("datePublished", .int 2020),
        ("publicationOutlet", .str "J"), ("authors", .list [])])) ∧
    query_crossref_xml ⟨200, .ok (.elem "doi_records" [] none
      [.elem "doi_record" [] none [.elem "crossref" [] none
        [.elem "book" [] none []]]])⟩ = .error "NotImplementedError" :=
  ⟨by decide, rfl, rfl⟩

/-- C3 (amended): each enrichment query function returns None, without
raising, whenever the response fails the ok check (status at least
400) — for `ols_lookup`, whenever the status is not 200.  On responses
passing the check the functions may also raise or return a dict. -/
theorem C3_not_ok_returns_none :
    (∀ r : JsonResponse, 400 ≤ r.status → query_doi_org r = .ok none) ∧
    (∀ r : XmlResponse, 400 ≤ r.status → query_crossref_xml r = .ok none) ∧
    (∀ term : String, ∀ r : JsonResponse, r.status ≠ 200 →
      ols_lookup term r = .ok none) ∧
    (∀ r : XmlResponse, 400 ≤ r.status → query_cordis r = .ok none) ∧
    (∀ r : GeprisResponse, 400 ≤ r.status → parse_gepris r = .ok none) := by
  refine ⟨?_, ?_, ?_, ?_, ?_⟩
  · intro r h
    have hlt : ¬ r.status < 400 := by omega
    simp [query_doi_org, respOk, hlt]
  · intro r h
    have hlt : ¬ r.status < 400 := by omega
    simp [query_crossref_xml, respOk, hlt]
  · intro term r h
    simp [ols_lookup, h]
  · intro r h
    have hlt : ¬ r.status < 400 := by omega
    simp [query_cordis, respOk, hlt]
  · intro r h
    have hlt : ¬ r.status < 400 := by omega
    simp [parse_gepris, respOk, hlt]

/-- Witness for C3_not_ok_returns_none on concrete failing responses. -/
theorem C3_not_ok_returns_none_witness :
    query_doi_org ⟨404, .error "JSONDecodeError"⟩ = .ok none ∧
    query_crossref_xml ⟨500, .error "ParseError"⟩ = .ok none ∧
    ols_lookup "UBERON:0013702" ⟨404, .error "JSONDecodeError"⟩ = .ok none ∧
    query_cordis ⟨403, .error "ParseError"⟩ = .ok none ∧
    parse_gepris ⟨404, []⟩ = .ok none :=
  ⟨C3_not_ok_returns_none.1 ⟨404, .error "JSONDecodeError"⟩ (by decide),
    C3_not_ok_returns_none.2.1 ⟨500, .error "ParseError"⟩ (by decide),
    C3_not_ok_returns_none.2.2.1 "UBERON:0013702" ⟨404, .error "JSONDecodeError"⟩
      (by decide),
    C3_not_ok_returns_none.2.2.2.1 ⟨403, .error "ParseError"⟩ (by decide),
    C3_not_ok_returns_none.2.2.2.2 ⟨404, []⟩ (by decide)⟩

/-- C10 (counterexample): a falsy `@value` string skips the `int()`
conversion, and the empty string — not being None — survives the final
strip, so the returned dict can carry a non-integer contentbytesize. -/
theorem C10_falsy_bytesize_counterexample :
    process_file (.dict [("contentbytesize", .dict [("@value", .str "")])]) =
      .ok (.dict [("contentbytesize", .str "")]) ∧
    ∀ n : Int, Val.str "" ≠ Val.int n :=
  ⟨rfl, fun _ h => Val.noConfusion h⟩

/-- C10 (amended): a dict returned by `process_file` has no None
values and at most the keys path, contentbytesize and url; a present
contentbytesize is either the `int()` of a truthy input `@value` or a
falsy leftover kept unconverted. -/
theorem C10_file_shape (f : Val) (d : List (String × Val))
    (h : process_file f = .ok (.dict d)) :
    (∀ kv ∈ d, kv.2.isNull = false) ∧
    (∀ kv ∈ d, kv.1 = "path" ∨ kv.1 = "contentbytesize" ∨ kv.1 = "url") ∧
    (∀ v : Val, ("contentbytesize", v) ∈ d →
      (∃ n : Int, v = .int n) ∨ v.truthy = false) := by
  cases f with
  | null => simp [process_file] at h
  | bool b => simp [process_file] at h
  | int n => simp [process_file] at h
  | str s => simp [process_file] at h
  | list xs => simp [process_file] at h
  | dict fkvs =>
    simp only [process_file] at h
    rw [bind_eq_ok] at h
    obtain ⟨pathv, hp, h⟩ := h
    rw [bind_eq_ok] at h
    obtain ⟨cbsv, hcb, h⟩ := h
    rw [bind_eq_ok] at h
    obtain ⟨d1, hd1, h⟩ := h
    rw [bind_eq_ok] at h
    obtain ⟨d2, hd2, h⟩ := h
    obtain rfl : d2.filter (fun kv => !kv.2.isNull) = d :=
      Val.dict.inj (Except.ok.inj h)
    -- shape of d1 relative to the base dict
    have hd1shape : d1 = [("path", pathv), ("contentbytesize", cbsv),
        ("url", pyGet1 fkvs "url")] ∨
        ∃ nv, d1 = dictSet [("path", pathv), ("contentbytesize", cbsv),
          ("url", pyGet1 fkvs "url")] "path" nv := by
      unfold file_path_fallback at hd1
      by_cases hc1 : ((pyGet1 fkvs "path").isNull && !(pyGet1 fkvs "name").isNull) = true
      · rw [if_pos hc1, bind_eq_ok] at hd1
        obtain ⟨nv, _, hpure⟩ := hd1
        exact Or.inr ⟨nv, (Except.ok.inj hpure).symm⟩
      · rw [if_neg hc1] at hd1
        exact Or.inl (Except.ok.inj hd1).symm
    -- keys of the base dict
    have h0keys : ∀ kv2 ∈ ([("path", pathv), ("contentbytesize", cbsv),
        ("url", pyGet1 fkvs "url")] : List (String × Val)),
        kv2.1 = "path" ∨ kv2.1 = "contentbytesize" ∨ kv2.1 = "url" := by
      intro kv2 hkv2
      simp only [List.mem_cons, List.not_mem_nil, or_false] at hkv2
      rcases hkv2 with rfl | rfl | rfl
      · exact Or.inl rfl
      · exact Or.inr (Or.inl rfl)
      · exact Or.inr (Or.inr rfl)
    -- keys of d1
    have hd1keys : ∀ kv ∈ d1,
        kv.1 = "path" ∨ kv.1 = "contentbytesize" ∨ kv.1 = "url" := by
      intro kv hkv
      rcases hd1shape with hs | ⟨nv, hs⟩
      · exact h0keys kv (hs ▸ hkv)
      · rcases mem_dictSet kv (hs ▸ hkv) with rfl | hmem
        · exact Or.inl rfl
        · exact h0keys kv hmem
    -- the contentbytesize binding of d1 is still cbsv
    have hd1cbs : alookup d1 "contentbytesize" = some cbsv := by
      rcases hd1shape with hs | ⟨nv, hs⟩
      · rw [hs]
        rfl
      · rw [hs, alookup_dictSet_ne _ _ _ _ (by decide)]
        rfl
    -- any contentbytesize member of d1 carries cbsv
    have hd1cbsmem : ∀ v : Val, ("contentbytesize", v) ∈ d1 → v = cbsv := by
      intro v hv
      have hbase : ∀ w : Val, ("contentbytesize", w) ∈
          ([("path", pathv), ("contentbytesize", cbsv),
            ("url", pyGet1 fkvs "url")] : List (String × Val)) → w = cbsv := by
        intro w hw
        simp only [List.mem_cons, List.not_mem_nil, or_false] at hw
        rcases hw with h2 | h2 | h2
        · exact absurd (Prod.mk.inj h2).1 (by decide)
        · exact (Prod.mk.inj h2).2
        · exact absurd (Prod.mk.inj h2).1 (by decide)
      rcases hd1shape with hs | ⟨nv, hs⟩
      · exact hbase v (hs ▸ hv)
      · rcases mem_dictSet _ (hs ▸ hv) with heq | hmem
        · exact absurd (Prod.mk.inj heq).1 (by decide)
        · exact hbase v hmem
    refine ⟨?_, ?_, ?_⟩
    · intro kv hkv
      have := (List.mem_filter.mp hkv).2
      simpa using this
    · intro kv hkv
      have hkv2 := (List.mem_filter.mp hkv).1
      unfold file_bytesize_conv at hd2
      by_cases ht : (pyGet d1 "contentbytesize" (.bool false)).truthy = true
      · rw [if_pos ht, bind_eq_ok] at hd2
        obtain ⟨n, _, hpure⟩ := hd2
        obtain rfl : dictSet d1 "contentbytesize" (.int n) = d2 := Except.ok.inj hpure
        rcases mem_dictSet kv hkv2 with rfl | hmem
        · exact Or.inr (Or.inl rfl)
        · exact hd1keys kv hmem
      · rw [if_neg ht] at hd2
        obtain rfl : d1 = d2 := Except.ok.inj hd2
        exact hd1keys kv hkv2
    · intro v hv
      have hv2 := (List.mem_filter.mp hv).1
      unfold file_bytesize_conv at hd2
      by_cases ht : (pyGet d1 "contentbytesize" (.bool false)).truthy = true
      · rw [if_pos ht, bind_eq_ok] at hd2
        obtain ⟨n, _, hpure⟩ := hd2
        obtain rfl : dictSet d1 "contentbytesize" (.int n) = d2 := Except.ok.inj hpure
        have := mem_dictSet_key _ hv2 rfl
        exact Or.inl ⟨n, (Prod.mk.inj this).2⟩
      · rw [if_neg ht] at hd2
        obtain rfl : d1 = d2 := Except.ok.inj hd2
        obtain rfl : v = cbsv := hd1cbsmem v hv2
        have hgv : pyGet d1 "contentbytesize" (.bool false) = v := by
          show (alookup d1 "contentbytesize").getD (.bool false) = v
          rw [hd1cbs]
          rfl
        rw [hgv] at ht
        exact Or.inr (by simpa using ht)

/-- Every value of the stripped tail of the assembly is non-None. -/
theorem mem_meta_item_post (m : List (String × Val)) (selfdesc : Option (String × String))
    (clone : Val) : ∀ kv ∈ meta_item_post m selfdesc clone, kv.2.isNull = false := by
  intro kv hkv
  unfold meta_item_post at hkv
  simpa using (List.mem_filter.mp hkv).2

/-- A non-None binding of a key untouched by the assembly tail
(anything but dataset_id, dataset_version, url) survives into the
stripped result. -/
theorem alookup_meta_item_post (m : List (String × Val))
    (selfdesc : Option (String × String)) (clone : Val) (k : String) (v : Val)
    (h1 : k ≠ "dataset_id") (h2 : k ≠ "dataset_version") (h3 : k ≠ "url")
    (hv : v.isNull = false) (h : alookup m k = some v) :
    alookup (meta_item_post m selfdesc clone) k = some v := by
  unfold meta_item_post
  apply alookup_filter_keep _ _ _ hv
  have hsd : alookup (match selfdesc with
      | some ids => dictSet (dictSet m "dataset_id" (.str ids.1)) "dataset_version"
          (.str ids.2)
      | none => m) k = some v := by
    cases selfdesc with
    | none => exact h
    | some ids =>
      rw [alookup_dictSet_ne _ _ _ _ h2, alookup_dictSet_ne _ _ _ _ h1]
      exact h
  by_cases hcl : clone.isNull = true
  · rw [if_pos hcl]
    exact hsd
  · rw [if_neg hcl, alookup_dictSet_ne _ _ _ _ h3]
    exact hsd

/-- C8: a successfully assembled metadata item contains no None values,
at its top level and inside the additional_display content dict — the
two stripping comprehensions remove every key whose transformer or
lookup produced None. -/
theorem C8_no_none (base grant_lut : List (String × Val))
    (qdoi qcrossref : String → M (Option Val)) (qagency : String → M (Option String))
    (sample_organism sample_part : Val) (selfdesc : Option (String × String))
    (compacted : List (String × Val)) (item : List (String × Val))
    (h : build_meta_item base grant_lut qdoi qcrossref qagency sample_organism
      sample_part selfdesc compacted = .ok item) :
    (∀ kv ∈ item, kv.2.isNull = false) ∧
    ∀ ckvs ∈ contentDicts (pyGet1 item "additional_display"),
      ∀ kv ∈ ckvs, kv.2.isNull = false := by
  simp only [build_meta_item] at h
  rw [bind_eq_ok] at h
  obtain ⟨m7, hm7, h⟩ := h
  rw [bind_eq_ok] at h
  obtain ⟨content, hcont, h⟩ := h
  rw [bind_eq_ok] at h
  obtain ⟨clone, hclone, h⟩ := h
  obtain rfl : meta_item_post (dictSet m7 "additional_display"
      (additional_display_value content)) selfdesc clone = item := Except.ok.inj h
  constructor
  · exact mem_meta_item_post _ _ _
  · intro ckvs hck
    have hl : alookup (meta_item_post (dictSet m7 "additional_display"
        (additional_display_value content)) selfdesc clone) "additional_display" =
        some (additional_display_value content) :=
      alookup_meta_item_post _ _ _ _ _ (by decide) (by decide) (by decide) rfl
        (alookup_dictSet_self _ _ _)
    have hpg : pyGet1 (meta_item_post (dictSet m7 "additional_display"
        (additional_display_value content)) selfdesc clone) "additional_display" =
        additional_display_value content := by
      show (alookup _ "additional_display").getD .null = _
      rw [hl]
      rfl
    rw [hpg] at hck
    rw [show contentDicts (additional_display_value content) =
      [content.filter (fun kv => !kv.2.isNull)] from rfl] at hck
    simp only [List.mem_singleton] at hck
    subst hck
    intro kv hkv
    simpa using (List.mem_filter.mp hkv).2

/-- Witness for C8_no_none on the fixture record. -/
theorem C8_no_none_witness :
    (∀ kv ∈ metaItemFixture, kv.2.isNull = false) ∧
    ∀ ckvs ∈ contentDicts (pyGet1 metaItemFixture "additional_display"),
      ∀ kv ∈ ckvs, kv.2.isNull = false :=
  C8_no_none [] [] (fun _ => .ok none) (fun _ => .ok none) (fun _ => .ok none)
    .null .null none tabbyRecordFixture metaItemFixture rfl

/-- Witness for C10_file_shape on a complete file-info dict. -/
theorem C10_file_shape_witness :
    (∀ kv ∈ ([("path", Val.str "a"), ("contentbytesize", Val.int 7),
        ("url", Val.str "u")] : List (String × Val)), kv.2.isNull = false) ∧
    (∀ kv ∈ ([("path", Val.str "a"), ("contentbytesize", Val.int 7),
        ("url", Val.str "u")] : List (String × Val)),
      kv.1 = "path" ∨ kv.1 = "contentbytesize" ∨ kv.1 = "url") ∧
    (∀ v : Val, ("contentbytesize", v) ∈ ([("path", Val.str "a"),
        ("contentbytesize", Val.int 7), ("url", Val.str "u")] : List (String × Val)) →
      (∃ n : Int, v = .int n) ∨ v.truthy = false) :=
  C10_file_shape (.dict [("path", .dict [("@value", .str "a")]),
    ("contentbytesize", .dict [("@value", .str "7")]), ("url", .str "u")]) _ rfl

end TabbyUtils
